import Mathlib

/-!
Verification of the scenario-execution pipeline of the RESTAPI-Agents
repository: a shallow embedding of `services/api_executor.py`,
`services/template_renderer.py`, `services/openapi_parser.py` and
`agents/qa_agent.py`, together with theorems settling the specified
behavioural claims.

Modelling conventions:
* Python/JSON values are the inductive `JsonVal`; numbers are modelled as
  integers (IEEE floating point is outside the embedding; no settled claim
  exercises non-integral numerics).
* Python dicts are insertion-ordered association lists; `pyDictSet`
  replaces the value of an existing key in place and appends new keys,
  matching CPython semantics.  `List.lookup` (first occurrence) therefore
  agrees with Python key lookup.
* Exceptions are explicit: fallible code returns `Except`.
* External effects (the HTTP client, the AI service, the Jinja2 engine and
  the YAML/JSON decoders) are parameters ("oracles") of the embedded
  functions, so every theorem quantifies over their behaviour.
* All string manipulation is re-implemented structurally over `List Char`
  so that closed instances evaluate inside the kernel.
-/

/-- Python/JSON values as decoded from YAML/JSON documents and as carried in
the `Any`-typed fields of the pydantic models. -/
inductive JsonVal where
  | null : JsonVal
  | b : Bool → JsonVal
  | i : Int → JsonVal
  | s : String → JsonVal
  | arr : List JsonVal → JsonVal
  | obj : List (String × JsonVal) → JsonVal

instance : Inhabited JsonVal := ⟨.null⟩

/-- Python truthiness (`bool(v)`): `None`, `False`, `0`, `""`, `[]` and
`{}` are falsy, everything else is truthy. -/
def pyTruthy : JsonVal → Bool
  | .null => false
  | .b bv => bv
  | .i n => n != 0
  | .s str => str != ""
  | .arr xs => !xs.isEmpty
  | .obj kvs => !kvs.isEmpty

/-- Join a list of strings with a separator, like Python `sep.join(xs)`. -/
def joinSep (sep : String) : List String → String
  | [] => ""
  | x :: rest => rest.foldl (fun acc y => acc ++ sep ++ y) x

mutual
/-- Python `repr(v)` for decoded JSON values (string quoting of special
characters inside `repr` of a `str` is not modelled; no settled claim
depends on it). -/
def pyRepr : JsonVal → String
  | .null => "None"
  | .b true => "True"
  | .b false => "False"
  | .i n => toString n
  | .s str => "'" ++ str ++ "'"
  | .arr xs => "[" ++ joinSep ", " (pyReprList xs) ++ "]"
  | .obj kvs => "\x7b" ++ joinSep ", " (pyReprObj kvs) ++ "\x7d"

/-- Helper of `pyRepr` for array elements. -/
def pyReprList : List JsonVal → List String
  | [] => []
  | v :: rest => pyRepr v :: pyReprList rest

/-- Helper of `pyRepr` for object entries. -/
def pyReprObj : List (String × JsonVal) → List String
  | [] => []
  | (k, v) :: rest => ("'" ++ k ++ "': " ++ pyRepr v) :: pyReprObj rest
end

/-- Python `str(v)` for decoded JSON values: the identity on strings,
`repr`-like rendering otherwise. -/
def pyStr : JsonVal → String
  | .s str => str
  | v => pyRepr v

/-- Insertion-ordered Python dict update `d[k] = v`: replaces the value of
the first occurrence of `k` in place, otherwise appends the new pair. -/
def pyDictSet {α : Type} (d : List (String × α)) (k : String) (v : α) :
    List (String × α) :=
  match d with
  | [] => [(k, v)]
  | (k', v') :: rest =>
    if k' = k then (k', v) :: rest else (k', v') :: pyDictSet rest k v

/-- Check whether `needle` occurs as a contiguous substring of `hay`
(Python `needle in hay` on strings). -/
def containsSub (needle : List Char) : List Char → Bool
  | [] => needle.isEmpty
  | c :: t => needle.isPrefixOf (c :: t) || containsSub needle t

/-- String-level wrapper for `containsSub`. -/
def strContains (hay needle : String) : Bool :=
  containsSub needle.data hay.data

/-- Fuelled kernel of `pyReplace`; the fuel is the length of the haystack,
which bounds the number of recursion steps. -/
def replaceFuel (needle repl : List Char) : Nat → List Char → List Char
  | 0, hay => hay
  | _ + 1, [] => []
  | fuel + 1, c :: t =>
    if needle ≠ [] ∧ needle.isPrefixOf (c :: t) then
      repl ++ replaceFuel needle repl fuel ((c :: t).drop needle.length)
    else
      c :: replaceFuel needle repl fuel t

/-- Python `hay.replace(old, new)`: replace every non-overlapping occurrence
of `old`, scanning left to right.  (The `old = ""` case, which Python treats
as inserting between characters, is modelled as the identity; the embedded
code only ever replaces non-empty placeholder strings.) -/
def pyReplace (hay old new : String) : String :=
  ⟨replaceFuel old.data new.data hay.data.length hay.data⟩

/-- Split a character list on a separator character; mirrors Python
`str.split(sep)` for a one-character separator (the only form the embedded
code uses). -/
def splitOnChar (sep : Char) : List Char → List (List Char)
  | [] => [[]]
  | c :: t =>
    let r := splitOnChar sep t
    if c = sep then [] :: r else (c :: r.headD []) :: r.tail

/-- String-level wrapper for `splitOnChar`. -/
def pySplit (str : String) (sep : Char) : List String :=
  (splitOnChar sep str.data).map (fun l => ⟨l⟩)

/-- ASCII lower-casing of a string (Python `str.lower()` restricted to the
character set the repository manipulates). -/
def lowerStr (str : String) : String := ⟨str.data.map Char.toLower⟩

/-- ASCII upper-casing of a string. -/
def upperStr (str : String) : String := ⟨str.data.map Char.toUpper⟩

/-- Python `str.strip()`: drop whitespace from both ends. -/
def pyStrip (str : String) : String :=
  ⟨((str.data.dropWhile Char.isWhitespace).reverse.dropWhile
      Char.isWhitespace).reverse⟩

/-- Python `str.strip(c)` for a single strip character. -/
def pyStripChar (str : String) (c : Char) : String :=
  ⟨((str.data.dropWhile (· = c)).reverse.dropWhile (· = c)).reverse⟩

/-- Decimal digit characters. -/
def digitVal? (c : Char) : Option Nat :=
  if c = '0' then some 0 else if c = '1' then some 1
  else if c = '2' then some 2 else if c = '3' then some 3
  else if c = '4' then some 4 else if c = '5' then some 5
  else if c = '6' then some 6 else if c = '7' then some 7
  else if c = '8' then some 8 else if c = '9' then some 9 else none

/-- Parse a non-empty all-digit character list. -/
def digitsVal? : List Char → Option Nat
  | [] => none
  | l => l.foldl (fun acc c =>
      match acc, digitVal? c with
      | some a, some d => some (a * 10 + d)
      | _, _ => none) (some 0)

/-- Python `int(str)`: optional surrounding whitespace, optional sign, then
decimal digits; anything else raises `ValueError` (`none` here).  (Python
also permits underscores between digits; not modelled, no claim uses it.) -/
def parsePyInt (str : String) : Option Int :=
  match (pyStrip str).data with
  | [] => none
  | '+' :: rest => (digitsVal? rest).map Int.ofNat
  | '-' :: rest => (digitsVal? rest).map (fun n => -(Int.ofNat n))
  | l => (digitsVal? l).map Int.ofNat

/-- Decimal representation of a natural number (fuelled kernel). -/
def natChars : Nat → Nat → List Char
  | 0, _ => []
  | fuel + 1, n =>
    if n < 10 then
      [(Char.ofNat (48 + n))]
    else
      natChars fuel (n / 10) ++ [Char.ofNat (48 + n % 10)]

/-- Decimal representation of a natural number, as produced by Python
`str(i)` for a non-negative index. -/
def natRepr (n : Nat) : String := ⟨natChars (n + 1) n⟩

/-! ## Data model (`models/schemas.py`) -/

/-- HTTP methods supported by the pipeline. -/
inductive HTTPMethod where
  | GET | POST | PUT | PATCH | DELETE
  deriving DecidableEq

/-- The `value` of an `HTTPMethod` enum member. -/
def methodStr : HTTPMethod → String
  | .GET => "GET"
  | .POST => "POST"
  | .PUT => "PUT"
  | .PATCH => "PATCH"
  | .DELETE => "DELETE"

/-- Parameter locations. -/
inductive ParameterLocation where
  | path | query | header | body
  deriving DecidableEq

/-- Declared parameter types. -/
inductive ParameterType where
  | string | integer | number | boolean | array | object
  deriving DecidableEq

/-- An API parameter as normalized by the parser (`APIParameter`). -/
structure APIParameter where
  name : String
  location : ParameterLocation
  param_type : ParameterType
  description : String
  required : Bool
  default : JsonVal
  example_val : JsonVal
  enum : Option (List String)

/-- A declared response (`APIResponse`). -/
structure APIResponseM where
  status_code : Int
  description : String
  schema : List (String × JsonVal)
  example_val : Option (List (String × JsonVal))

/-- A normalized endpoint (`APIEndpoint`). -/
structure APIEndpoint where
  path : String
  method : HTTPMethod
  operation_id : String
  summary : String
  description : String
  tags : List String
  parameters : List APIParameter
  request_body : Option JsonVal
  responses : List APIResponseM

/-- A parsed specification (`APISpec`). -/
structure APISpec where
  title : String
  version : String
  description : String
  base_url : String
  endpoints : List APIEndpoint
  servers : List (String × String)
  security_schemes : List (String × JsonVal)
  original_spec : Option JsonVal

/-- A single entity-to-parameter binding (`ParameterMapping`). -/
structure ParameterMapping where
  entity_name : String
  api_parameter : String
  transform : Option String

/-- A scenario-to-endpoint binding (`APIMapping`). -/
structure APIMapping where
  endpoint_path : String
  method : HTTPMethod
  parameter_mappings : List ParameterMapping
  static_params : List (String × JsonVal)

/-- A response template (`ResponseTemplate`). -/
structure ResponseTemplate where
  template : String
  error_template : String
  no_data_template : String

/-- A Q&A scenario (`Scenario`). -/
structure Scenario where
  id : String
  name : String
  description : String
  required_entities : List String
  api_mappings : List APIMapping
  response_template : Option ResponseTemplate

/-- An entity extracted from the user question (`ExtractedEntity`). -/
structure ExtractedEntity where
  name : String
  value : JsonVal
  confidence : ℚ

/-- A scenario-match result delivered by the AI service (`ScenarioMatch`). -/
structure ScenarioMatch where
  scenario : Scenario
  confidence : ℚ
  extracted_entities : List ExtractedEntity

/-- Agent configuration (`AgentConfig`), restricted to the fields the
pipeline reads. -/
structure AgentConfig where
  api_spec : APISpec
  scenarios : List Scenario
  auth_config : List (String × JsonVal)

/-- One entry of the result list built by `APIExecutor.execute_scenario`:
a Python dict with exactly the keys `endpoint`, `success`, `data`,
`error`. -/
structure ExecResult where
  endpoint : String
  success : Bool
  data : JsonVal
  error : Option String

/-- Response of the Q&A agent (`AgentResponse`); `api_calls_made` entries
are the `{endpoint, success}` pairs built in `QAAgent.answer`. -/
structure AgentResponse where
  answer : String
  scenario_used : Option String
  api_calls_made : List (String × Bool)
  raw_api_responses : List ExecResult

/-! ## The invocation engine (`services/api_executor.py`) -/

/-- Outcome of one `_execute_api_call` invocation.  The HTTP client is an
external effect, so a single call is an oracle: it either returns parsed
response data, raises `APIExecutionError` (timeout, transport failure or
HTTP status ≥ 400 — all raised as `APIExecutionError` inside
`_execute_api_call`), or raises some other exception. -/
inductive CallOutcome where
  | ok (data : JsonVal)
  | execError (msg : String)
  | otherError (msg : String)

/-- The oracle abstracting `APIExecutor._execute_api_call`: given the
mapping and the entity map, produce the outcome of the HTTP call. -/
def CallOracle : Type := APIMapping → List (String × JsonVal) → CallOutcome

/-- The `f"{api_mapping.method.value} {api_mapping.endpoint_path}"` label. -/
def endpointLabel (m : APIMapping) : String :=
  methodStr m.method ++ " " ++ m.endpoint_path

/-- The result dict appended for one mapping by `execute_scenario`:
success wraps the data; `APIExecutionError` is recorded verbatim; any
other exception is recorded with the `Unexpected error: ` prefix. -/
def resultOfOutcome (m : APIMapping) : CallOutcome → ExecResult
  | .ok d => ⟨endpointLabel m, true, d, none⟩
  | .execError e => ⟨endpointLabel m, false, .null, some e⟩
  | .otherError e => ⟨endpointLabel m, false, .null, some ("Unexpected error: " ++ e)⟩

/-- The entity map `{e.name: e.value for e in extracted_entities}`. -/
def build_entity_map (es : List ExtractedEntity) : List (String × JsonVal) :=
  es.foldl (fun m e => pyDictSet m e.name e.value) []

/-- The `for api_mapping in scenario.api_mappings` loop of
`execute_scenario`: every iteration appends exactly one result dict and
never re-raises, because the two `except` clauses catch
`APIExecutionError` and `Exception`. -/
def execute_scenario_loop (call : CallOracle)
    (em : List (String × JsonVal)) : List APIMapping → List ExecResult
  | [] => []
  | m :: rest => resultOfOutcome m (call m em) :: execute_scenario_loop call em rest

/-- Embedding of `APIExecutor.execute_scenario`. -/
def execute_scenario (call : CallOracle) (scenario : Scenario)
    (extracted_entities : List ExtractedEntity) : List ExecResult :=
  execute_scenario_loop call (build_entity_map extracted_entities)
    scenario.api_mappings

/-! ## Theorems for the invocation engine (C1, C10) -/

/-- Whether a call outcome is a success. -/
def CallOutcome.isOk : CallOutcome → Bool
  | .ok _ => true
  | _ => false

/-- C1: `execute_scenario` returns exactly one `ExecutionResult` per
`APIMapping`, in declaration order; the result at position `i` is fully
determined by the mapping at position `i` and its own call outcome, its
success flag is true exactly when that call succeeded, and a failing call
never prevents the remaining mappings from contributing their results. -/
theorem execute_scenario_one_result_per_mapping (call : CallOracle)
    (sc : Scenario) (es : List ExtractedEntity) :
    (execute_scenario call sc es).length = sc.api_mappings.length ∧
    (∀ i : Nat, (execute_scenario call sc es)[i]? =
      (sc.api_mappings[i]?).map
        (fun m => resultOfOutcome m (call m (build_entity_map es)))) ∧
    (∀ i : Nat, ∀ m : APIMapping, sc.api_mappings[i]? = some m →
      ∃ r : ExecResult, (execute_scenario call sc es)[i]? = some r ∧
        r.success = (call m (build_entity_map es)).isOk) := by
  unfold execute_scenario
  generalize sc.api_mappings = ms
  generalize build_entity_map es = em
  have hlen : (execute_scenario_loop call em ms).length = ms.length := by
    induction ms with
    | nil => rfl
    | cons m rest ih => simpa [execute_scenario_loop] using ih
  have hidx : ∀ i : Nat, (execute_scenario_loop call em ms)[i]? =
      (ms[i]?).map (fun m => resultOfOutcome m (call m em)) := by
    clear hlen
    intro i
    induction ms generalizing i with
    | nil => simp [execute_scenario_loop]
    | cons m rest ih =>
      cases i with
      | zero => simp [execute_scenario_loop]
      | succ j => simpa [execute_scenario_loop] using ih j
  refine ⟨hlen, hidx, ?_⟩
  intro i m hm
  refine ⟨resultOfOutcome m (call m em), ?_, ?_⟩
  · rw [hidx i, hm]; rfl
  · cases call m em <;> rfl

/-- Witness for C1: a concrete two-mapping scenario in which the first call
fails (transport error) and the second succeeds; both results are present,
in order, with independent success flags. -/
theorem execute_scenario_one_result_per_mapping_witness :
    (execute_scenario
        (fun m _ => if m.endpoint_path = "/a" then .execError "Request failed: boom"
                    else .ok (.obj [("x", .i 1)]))
        ⟨"s1", "demo", "", [], [⟨"/a", .GET, [], []⟩, ⟨"/b", .GET, [], []⟩], none⟩
        []).length = 2 ∧
    (execute_scenario
        (fun m _ => if m.endpoint_path = "/a" then .execError "Request failed: boom"
                    else .ok (.obj [("x", .i 1)]))
        ⟨"s1", "demo", "", [], [⟨"/a", .GET, [], []⟩, ⟨"/b", .GET, [], []⟩], none⟩
        [])[0]? =
      some ⟨"GET /a", false, .null, some "Request failed: boom"⟩ ∧
    (execute_scenario
        (fun m _ => if m.endpoint_path = "/a" then .execError "Request failed: boom"
                    else .ok (.obj [("x", .i 1)]))
        ⟨"s1", "demo", "", [], [⟨"/a", .GET, [], []⟩, ⟨"/b", .GET, [], []⟩], none⟩
        [])[1]? =
      some ⟨"GET /b", true, .obj [("x", .i 1)], none⟩ := by
  have h := execute_scenario_one_result_per_mapping
    (fun m _ => if m.endpoint_path = "/a" then .execError "Request failed: boom"
                else .ok (.obj [("x", .i 1)]))
    ⟨"s1", "demo", "", [], [⟨"/a", .GET, [], []⟩, ⟨"/b", .GET, [], []⟩], none⟩
    []
  refine ⟨h.1.trans rfl, ?_, ?_⟩
  · exact (h.2.1 0).trans rfl
  · exact (h.2.1 1).trans rfl

/-- C10: every result produced by `execute_scenario` satisfies the result
invariant — a successful result has a null error, a failed result has null
data and a non-null error string — and carries the `METHOD path` label of
the mapping (at its own position) that produced it. -/
theorem execute_scenario_result_invariant (call : CallOracle)
    (sc : Scenario) (es : List ExtractedEntity) (r : ExecResult)
    (hr : r ∈ execute_scenario call sc es) :
    (r.success = true → r.error = none) ∧
    (r.success = false → r.data = .null ∧ r.error.isSome) ∧
    (∃ i : Nat, ∃ m : APIMapping, sc.api_mappings[i]? = some m ∧
      (execute_scenario call sc es)[i]? = some r ∧
      r.endpoint = endpointLabel m) := by
  unfold execute_scenario at hr ⊢
  generalize hms : sc.api_mappings = ms at hr ⊢
  generalize hem : build_entity_map es = em at hr ⊢
  clear hms hem
  induction ms with
  | nil => simp [execute_scenario_loop] at hr
  | cons m rest ih =>
    simp only [execute_scenario_loop, List.mem_cons] at hr
    rcases hr with hr | hr
    · subst hr
      refine ⟨?_, ?_, 0, m, by simp, by simp [execute_scenario_loop], ?_⟩ <;>
        cases hc : call m em <;> simp [resultOfOutcome, hc]
    · obtain ⟨h1, h2, i, m', hi, hres, hlab⟩ := ih hr
      exact ⟨h1, h2, i + 1, m', by simpa using hi,
        by simpa [execute_scenario_loop] using hres, hlab⟩

/-- Witness for C10: the invariant instantiated on a concrete failed call. -/
theorem execute_scenario_result_invariant_witness :
    (⟨"GET /a", false, .null, some "Unexpected error: kaput"⟩ : ExecResult).data
        = .null ∧
    (⟨"GET /a", false, .null, some "Unexpected error: kaput"⟩ :
        ExecResult).error.isSome := by
  have h := execute_scenario_result_invariant
    (fun _ _ => .otherError "kaput")
    ⟨"s1", "demo", "", [], [⟨"/a", .GET, [], []⟩], none⟩ []
    ⟨"GET /a", false, .null, some "Unexpected error: kaput"⟩
    (by simp [execute_scenario, execute_scenario_loop, build_entity_map,
      resultOfOutcome, endpointLabel, methodStr])
  exact h.2.1 rfl

/-! ## The template renderer (`services/template_renderer.py`) -/

/-- Result of one raw Jinja2 render attempt (`Environment.from_string` +
`Template.render`): success, `TemplateSyntaxError`, `UndefinedError` or any
other exception.  The Jinja2 engine is external, hence an oracle. -/
inductive JinjaResult where
  | ok (text : String)
  | syntaxError (msg : String)
  | undefinedError (msg : String)
  | otherError (msg : String)

/-- Oracle abstracting the Jinja2 engine. -/
def JinjaOracle : Type := String → List (String × JsonVal) → JinjaResult

/-- Embedding of `TemplateRenderer.render` called with
`error_template=None` (the form used for the recursive fallback call). -/
def render_plain (jinja : JinjaOracle) (template : String)
    (data : List (String × JsonVal)) : String :=
  match jinja template data with
  | .ok t => t
  | .syntaxError m => "Template error: " ++ m
  | .undefinedError m => "Missing data: " ++ m
  | .otherError m => "Render error: " ++ m

/-- Embedding of `TemplateRenderer.render`: on failure, if an error
template was given it is rendered (without a further fallback) with
`error` bound to a description of the failure, otherwise a plain fallback
message is returned. -/
def render (jinja : JinjaOracle) (template : String)
    (data : List (String × JsonVal)) (error_template : Option String) : String :=
  match jinja template data with
  | .ok t => t
  | .syntaxError m =>
    match error_template with
    | some e => render_plain jinja e [("error", .s ("Template syntax error: " ++ m))]
    | none => "Template error: " ++ m
  | .undefinedError m =>
    match error_template with
    | some e => render_plain jinja e [("error", .s ("Missing data: " ++ m))]
    | none => "Missing data: " ++ m
  | .otherError m =>
    match error_template with
    | some e => render_plain jinja e [("error", .s m)]
    | none => "Render error: " ++ m

/-- Which template `render_api_response` hands to `render` (and with which
context and fallback), or which literal text it returns directly.  This
separates the renderer's control flow, which the claims are about, from
the Jinja2 oracle. -/
inductive RenderOutcome where
  | rendered (template : String) (ctx : List (String × JsonVal))
      (errorFallback : Option String)
  | literal (text : String)

/-- The result dict of one call, viewed as a generic value (used for the
`_results` helper binding). -/
def execResultJson (r : ExecResult) : JsonVal :=
  .obj [("endpoint", .s r.endpoint), ("success", .b r.success),
        ("data", r.data),
        ("error", match r.error with | some e => .s e | none => .null)]

/-- The key `f"result_{i}"`. -/
def resultKey (i : Nat) : String := "result_" ++ natRepr i

/-- One iteration of the context-building loop of `render_api_response`:
only a successful result with truthy data contributes; the result at
index 0 additionally has its body merged at top level (when it is a dict)
and bound under `data`. -/
def renderDataStep (i : Nat) (acc : List (String × JsonVal))
    (r : ExecResult) : List (String × JsonVal) :=
  if r.success && pyTruthy r.data then
    let acc1 :=
      if i = 0 then
        let acc0 :=
          match r.data with
          | .obj kvs => kvs.foldl (fun d kv => pyDictSet d kv.1 kv.2) acc
          | _ => acc
        pyDictSet acc0 "data" r.data
      else acc
    pyDictSet acc1 (resultKey i) r.data
  else acc

/-- The `for i, result in enumerate(api_results)` loop of
`render_api_response`. -/
def buildRenderDataLoop (i : Nat) (acc : List (String × JsonVal)) :
    List ExecResult → List (String × JsonVal)
  | [] => acc
  | r :: rest => buildRenderDataLoop (i + 1) (renderDataStep i acc r) rest

/-- The context assembled from the result list (before helper keys). -/
def buildRenderData (results : List ExecResult) : List (String × JsonVal) :=
  buildRenderDataLoop 0 [] results

/-- Collect the messages of an error list if all are non-null; a `None`
message makes `"; ".join` raise `TypeError` in the source. -/
def allSomeMsgs : List (Option String) → Option (List String)
  | [] => some []
  | some m :: rest => (allSomeMsgs rest).map (m :: ·)
  | none :: _ => none

/-- Embedding of `TemplateRenderer.render_api_response` down to the choice
of template, context and fallback.  Notes tying it to the source:
* `errors` / `any(...)` mirror lines 70–71;
* the `r.get("error", "Unknown error")` default is dead under the result
  shape produced by `execute_scenario` (the `error` key is always
  present); a failed result whose `error` value is `None` would make
  `"; ".join` raise `TypeError`, modelled as the `Except.error` case;
* the no-data template is returned literally, not rendered;
* helper keys are inserted only after the emptiness check, in source
  order `_results`, `_success_count`, `_error_count`. -/
def render_api_response (template : String) (api_results : List ExecResult)
    (error_template : String) (no_data_template : String) :
    Except String RenderOutcome :=
  let errors := api_results.filter (fun r => !r.success)
  if !errors.isEmpty && !(api_results.any (·.success)) then
    match allSomeMsgs (errors.map (·.error)) with
    | some msgs =>
      .ok (.rendered error_template [("error", .s (joinSep "; " msgs))] none)
    | none => .error "TypeError: sequence item: expected str instance, NoneType found"
  else
    let data := buildRenderData api_results
    if data.isEmpty then
      .ok (.literal no_data_template)
    else
      .ok (.rendered template
        (pyDictSet
          (pyDictSet
            (pyDictSet data "_results" (.arr (api_results.map execResultJson)))
            "_success_count" (.i (api_results.countP (·.success) : Int)))
          "_error_count" (.i (errors.length : Int)))
        (some error_template))

/-- String-level composition: the text `render_api_response` produces once
the chosen template is rendered through the Jinja2 oracle. -/
def renderOutcomeText (jinja : JinjaOracle) : RenderOutcome → String
  | .literal t => t
  | .rendered tpl ctx fb => render jinja tpl ctx fb

/-! ## Theorems for the renderer: all-failed handling (C4) -/

/-- Collecting a list of present messages succeeds and is the identity. -/
theorem allSomeMsgs_map_some (l : List String) :
    allSomeMsgs (l.map some) = some l := by
  induction l with
  | nil => rfl
  | cons m rest ih => simp [allSomeMsgs, ih]

/-- C4 (amended): for a NON-EMPTY result list in which every result failed
and carries a non-null error message (the only shape `execute_scenario`
produces for failures), `render_api_response` chooses the error template
with `error` bound to the semicolon-joined messages, with no fallback;
the main template and the no-data template are not used. -/
theorem render_api_response_all_failed (template : String)
    (results : List ExecResult) (etpl ndtpl : String) (msgs : List String)
    (hne : results ≠ [])
    (hfail : ∀ r ∈ results, r.success = false)
    (hmsgs : results.map (fun r => r.error) = msgs.map some) :
    render_api_response template results etpl ndtpl =
      .ok (.rendered etpl [("error", .s (joinSep "; " msgs))] none) := by
  have hfilter : results.filter (fun r => !r.success) = results :=
    List.filter_eq_self.mpr (fun r hr => by rw [hfail r hr]; rfl)
  have hany : results.any (fun r => r.success) = false := by
    rw [List.any_eq_false]
    intro r hr
    simp [hfail r hr]
  have hempty : results.isEmpty = false := by
    cases results with
    | nil => exact absurd rfl hne
    | cons a t => rfl
  simp only [render_api_response, hfilter, hany, hempty, hmsgs,
    allSomeMsgs_map_some, Bool.not_false, Bool.not_true, Bool.and_true,
    Bool.and_false, Bool.true_and, Bool.false_and, if_true, if_false]

/-- Witness for C4: two failed results produce the error template with the
joined messages. -/
theorem render_api_response_all_failed_witness :
    render_api_response "MAIN"
        [⟨"GET /a", false, .null, some "e1"⟩, ⟨"GET /b", false, .null, some "e2"⟩]
        "ERRTPL" "NODATA" =
      .ok (.rendered "ERRTPL" [("error", .s "e1; e2")] none) := by
  have h := render_api_response_all_failed "MAIN"
      [⟨"GET /a", false, .null, some "e1"⟩, ⟨"GET /b", false, .null, some "e2"⟩]
      "ERRTPL" "NODATA" ["e1", "e2"]
      (by simp)
      (by
        intro r hr
        simp only [List.mem_cons, List.not_mem_nil, or_false] at hr
        rcases hr with rfl | rfl <;> rfl)
      rfl
  exact h

/-- Counterexample for C4 as stated: on the EMPTY result list — where every
result vacuously has `success=false` — the code returns the no-data
template, not the error template. -/
theorem render_api_response_empty_counterexample :
    render_api_response "MAIN" [] "ERRTPL" "NODATA" = .ok (.literal "NODATA") := rfl

/-! ## Theorems for the renderer: context construction (C2) -/

/-- Counterexample for C2 as stated: when the FIRST result failed and the
second succeeded, the context contains neither a `data` binding (the first
SUCCESSFUL result's body is not bound, because only index 0 is treated as
main data) nor a `result_0` binding (failed results are not bound at all),
contradicting both "first successful result … bound under `data`" and
"every result … is bound under `result_<index>`". -/
theorem render_api_response_ctx_counterexample :
    render_api_response "MAIN"
        [⟨"GET /a", false, .null, some "boom"⟩,
         ⟨"GET /b", true, .obj [("name", .s "x")], none⟩]
        "ERRTPL" "NODATA" =
      .ok (.rendered "MAIN"
        [("result_1", .obj [("name", .s "x")]),
         ("_results", .arr
            [.obj [("endpoint", .s "GET /a"), ("success", .b false),
                   ("data", .null), ("error", .s "boom")],
             .obj [("endpoint", .s "GET /b"), ("success", .b true),
                   ("data", .obj [("name", .s "x")]), ("error", .null)]]),
         ("_success_count", .i 1), ("_error_count", .i 1)]
        (some "ERRTPL")) := rfl

/-- Value of `natChars` under the decimal decoding fold. -/
def decodeDigits (l : List Char) : Nat :=
  l.foldl (fun a c => a * 10 + (c.toNat - 48)) 0

/-- Decoding is a left inverse of `natChars` whenever the fuel suffices. -/
theorem decodeDigits_natChars :
    ∀ (fuel n : Nat), n < fuel → decodeDigits (natChars fuel n) = n := by
  intro fuel
  induction fuel with
  | zero => intro n h; omega
  | succ f ih =>
    intro n h
    rw [natChars]
    by_cases h10 : n < 10
    · rw [if_pos h10]
      unfold decodeDigits
      interval_cases n <;> decide
    · rw [if_neg h10]
      have hdiv : n / 10 < f := by
        have h1 : n / 10 < n := Nat.div_lt_self (by omega) (by omega)
        omega
      unfold decodeDigits at ih ⊢
      rw [List.foldl_append]
      rw [ih (n / 10) hdiv]
      have hm : n % 10 < 10 := Nat.mod_lt n (by omega)
      have hc : (Char.ofNat (48 + n % 10)).toNat - 48 = n % 10 := by
        interval_cases hmm : n % 10 <;> decide
      simp only [List.foldl_cons, List.foldl_nil, hc]
      omega

/-- Python decimal rendering of indices is injective. -/
theorem natRepr_inj {m n : Nat} (h : natRepr m = natRepr n) : m = n := by
  have hd : natChars (m + 1) m = natChars (n + 1) n := congrArg String.data h
  have := congrArg decodeDigits hd
  rwa [decodeDigits_natChars (m + 1) m (by omega),
    decodeDigits_natChars (n + 1) n (by omega)] at this

/-- The character data of a `result_<i>` key. -/
theorem data_resultKey (i : Nat) :
    (resultKey i).data = 'r' :: 'e' :: 's' :: 'u' :: 'l' :: 't' :: '_' :: natChars (i + 1) i := rfl

/-- The head character of every `result_<i>` key is `r`. -/
theorem head_resultKey (i : Nat) : (resultKey i).data.head? = some 'r' := rfl

/-- A string whose head character is not `r` is not a `result_<i>` key. -/
theorem ne_resultKey (k : String) (i : Nat) (hk : k.data.head? ≠ some 'r') :
    k ≠ resultKey i :=
  fun h => hk (h ▸ head_resultKey i)

/-- Distinct indices yield distinct `result_<i>` keys. -/
theorem resultKey_inj {a b : Nat} (h : resultKey a = resultKey b) : a = b := by
  have hd := congrArg String.data h
  rw [data_resultKey, data_resultKey] at hd
  simp only [List.cons.injEq, true_and] at hd
  exact natRepr_inj (congrArg String.mk hd)

/-- Lookup through a Python dict update. -/
theorem lookup_pyDictSet {α : Type} (d : List (String × α)) (k : String)
    (v : α) (κ : String) :
    (pyDictSet d k v).lookup κ = if κ = k then some v else d.lookup κ := by
  induction d with
  | nil =>
    by_cases h : κ = k
    · have hb : (κ == k) = true := beq_iff_eq.mpr h
      simp only [pyDictSet, List.lookup, hb, if_pos h]
    · have hb : (κ == k) = false := beq_eq_false_iff_ne.mpr h
      simp only [pyDictSet, List.lookup, hb, if_neg h]
  | cons p rest ih =>
    obtain ⟨k', v'⟩ := p
    by_cases h1 : k' = k
    · subst h1
      by_cases h2 : κ = k'
      · have hb : (κ == k') = true := beq_iff_eq.mpr h2
        simp only [pyDictSet, if_pos rfl, List.lookup, hb, if_pos h2]
      · have hb : (κ == k') = false := beq_eq_false_iff_ne.mpr h2
        simp only [pyDictSet, if_pos rfl, List.lookup, hb, if_neg h2]
    · by_cases h2 : κ = k'
      · have hb : (κ == k') = true := beq_iff_eq.mpr h2
        have hκk : ¬κ = k := fun hh => h1 (h2.symm.trans hh)
        simp only [pyDictSet, if_neg h1, List.lookup, hb, if_neg hκk]
      · have hb : (κ == k') = false := beq_eq_false_iff_ne.mpr h2
        simp only [pyDictSet, if_neg h1, List.lookup, hb, ih]

/-- A Python dict update never yields the empty dict. -/
theorem pyDictSet_ne_nil {α : Type} (d : List (String × α)) (k : String)
    (v : α) : pyDictSet d k v ≠ [] := by
  cases d with
  | nil => simp [pyDictSet]
  | cons p rest =>
    obtain ⟨k', v'⟩ := p
    by_cases h : k' = k <;> simp [pyDictSet, h]

/-- Lookup through a dict built by updates from a pair list: a key absent
from the pairs is looked up in the initial dict. -/
theorem fold_pyDictSet_lookup_miss {α : Type} (pairs : List (String × α))
    (acc : List (String × α)) (κ : String)
    (hκ : ∀ kv ∈ pairs, kv.1 ≠ κ) :
    (pairs.foldl (fun d kv => pyDictSet d kv.1 kv.2) acc).lookup κ =
      acc.lookup κ := by
  induction pairs generalizing acc with
  | nil => rfl
  | cons p rest ih =>
    rw [List.foldl_cons, ih _ (fun kv hkv => hκ kv (List.mem_cons_of_mem p hkv)),
      lookup_pyDictSet]
    rw [if_neg (fun h : κ = p.1 => hκ p (List.mem_cons_self p rest) h.symm)]

/-- Lookup through a dict built by updates from a pair list with distinct
keys: a listed pair is found with its own value. -/
theorem fold_pyDictSet_lookup_hit {α : Type} :
    ∀ (pairs : List (String × α)) (acc : List (String × α))
      (kv : String × α), kv ∈ pairs → (pairs.map Prod.fst).Nodup →
      (pairs.foldl (fun d kv => pyDictSet d kv.1 kv.2) acc).lookup kv.1 =
        some kv.2
  | [], _, _, hkv, _ => absurd hkv (List.not_mem_nil _)
  | p :: rest, acc, kv, hkv, hnd => by
    rw [List.map_cons, List.nodup_cons] at hnd
    rcases List.mem_cons.mp hkv with rfl | hmem
    · rw [List.foldl_cons,
        fold_pyDictSet_lookup_miss rest _ kv.1
          (fun q hq hq1 => hnd.1 (hq1 ▸ List.mem_map_of_mem Prod.fst hq)),
        lookup_pyDictSet, if_pos rfl]
    · exact fold_pyDictSet_lookup_hit rest _ kv hmem hnd.2

/-- Lookup through one loop iteration at a positive index: only the
`result_<i>` key of a qualifying result is written. -/
theorem renderDataStep_pos_lookup (i : Nat) (hi : i ≠ 0)
    (acc : List (String × JsonVal)) (r : ExecResult) (κ : String) :
    (renderDataStep i acc r).lookup κ =
      if κ = resultKey i ∧ (r.success && pyTruthy r.data) = true
      then some r.data else acc.lookup κ := by
  unfold renderDataStep
  by_cases hq : (r.success && pyTruthy r.data) = true
  · rw [if_pos hq, if_neg hi, lookup_pyDictSet]
    by_cases hκ : κ = resultKey i
    · rw [if_pos hκ, if_pos ⟨hκ, hq⟩]
    · rw [if_neg hκ, if_neg (fun h => hκ h.1)]
  · rw [if_neg hq, if_neg (fun h => hq h.2)]

/-- Lookup through the tail loop (starting at index ≥ 1) for a key that is
no `result_<index>` key of the remaining range: unchanged. -/
theorem loop_lookup_miss (rs : List ExecResult) (i0 : Nat) (hi0 : 1 ≤ i0)
    (acc : List (String × JsonVal)) (κ : String)
    (hκ : ∀ j, j < rs.length → κ ≠ resultKey (i0 + j)) :
    (buildRenderDataLoop i0 acc rs).lookup κ = acc.lookup κ := by
  induction rs generalizing i0 acc with
  | nil => rfl
  | cons r rest ih =>
    rw [buildRenderDataLoop]
    rw [ih (i0 + 1) (by omega) _
      (fun j hj => by
        have h := hκ (j + 1) (by simpa using Nat.succ_lt_succ hj)
        have harith : i0 + (j + 1) = i0 + 1 + j := by omega
        rwa [harith] at h)]
    rw [renderDataStep_pos_lookup i0 (by omega)]
    rw [if_neg (fun h => hκ 0 (by simp) (by simpa using h.1))]

/-- Lookup through the tail loop (starting at index ≥ 1) for the
`result_<i0+j>` key of position `j`: written exactly when result `j`
qualifies. -/
theorem loop_lookup_hit :
    ∀ (rs : List ExecResult) (i0 : Nat), 1 ≤ i0 →
    ∀ (acc : List (String × JsonVal)) (j : Nat) (hj : j < rs.length),
      (buildRenderDataLoop i0 acc rs).lookup (resultKey (i0 + j)) =
        if ((rs.get ⟨j, hj⟩).success && pyTruthy (rs.get ⟨j, hj⟩).data) = true
        then some ((rs.get ⟨j, hj⟩).data)
        else acc.lookup (resultKey (i0 + j))
  | [], _, _, _, j, hj => absurd hj (by simp)
  | r :: rest, i0, hi0, acc, 0, hj => by
    rw [buildRenderDataLoop]
    rw [loop_lookup_miss rest (i0 + 1) (by omega) _ _
      (fun j' hj' h => by
        have := resultKey_inj h
        omega)]
    rw [renderDataStep_pos_lookup i0 (by omega)]
    by_cases hq : (r.success && pyTruthy r.data) = true
    · rw [if_pos ⟨by simp, hq⟩]
      simp [hq]
    · rw [if_neg (fun h => hq h.2)]
      simp [hq]
  | r :: rest, i0, hi0, acc, j + 1, hj => by
    rw [buildRenderDataLoop]
    have harith : i0 + (j + 1) = i0 + 1 + j := by omega
    rw [harith]
    have hstep : (renderDataStep i0 acc r).lookup (resultKey (i0 + 1 + j)) =
        acc.lookup (resultKey (i0 + 1 + j)) := by
      rw [renderDataStep_pos_lookup i0 (by omega)]
      exact if_neg (fun h => by have := resultKey_inj h.1; omega)
    rw [loop_lookup_hit rest (i0 + 1) (by omega) _ j
      (by simpa using Nat.lt_of_succ_lt_succ hj), hstep]
    rfl

/-- The tail loop preserves non-emptiness of the accumulated context. -/
theorem loop_ne_nil :
    ∀ (rs : List ExecResult) (i : Nat) (acc : List (String × JsonVal)),
      acc ≠ [] → buildRenderDataLoop i acc rs ≠ []
  | [], _, _, h => h
  | r :: rest, i, acc, h => by
    rw [buildRenderDataLoop]
    apply loop_ne_nil rest (i + 1)
    unfold renderDataStep
    by_cases hq : (r.success && pyTruthy r.data) = true
    · rw [if_pos hq]; exact pyDictSet_ne_nil _ _ _
    · rw [if_neg hq]; exact h

/-- The top-level pairs of a result body, as merged by the `i == 0` branch
(`data.update(result["data"])` when the body is a dict, nothing
otherwise). -/
def bodyPairs : JsonVal → List (String × JsonVal)
  | .obj kvs => kvs
  | _ => []

/-- Keys that the context-building code itself writes for a result list of
length `n`; a body key colliding with one of these can be shadowed. -/
def reservedKeyB (n : Nat) (k : String) : Bool :=
  k = "data" || k = "_results" || k = "_success_count" || k = "_error_count" ||
    (List.range n).any (fun i => k = resultKey i)

/-- Unfolding of `reservedKeyB` into its five negative components. -/
theorem reservedKeyB_eq_false_iff (n : Nat) (k : String) :
    reservedKeyB n k = false ↔
      k ≠ "data" ∧ k ≠ "_results" ∧ k ≠ "_success_count" ∧
      k ≠ "_error_count" ∧ ∀ i, i < n → k ≠ resultKey i := by
  simp only [reservedKeyB, Bool.or_eq_false_iff, decide_eq_false_iff_not,
    List.any_eq_false, List.mem_range, decide_eq_true_eq]
  tauto

/-- The first loop iteration under a successful, truthy-data result at
index 0: merge the body pairs (when the body is a dict), bind `data`, bind
`result_0`. -/
theorem renderDataStep_zero (r0 : ExecResult) (h0s : r0.success = true)
    (h0d : pyTruthy r0.data = true) :
    renderDataStep 0 [] r0 =
      pyDictSet
        (pyDictSet
          ((bodyPairs r0.data).foldl (fun d kv => pyDictSet d kv.1 kv.2) [])
          "data" r0.data)
        (resultKey 0) r0.data := by
  unfold renderDataStep
  rw [h0s]
  simp only [h0d, Bool.and_self, if_true, if_pos rfl]
  cases hdata : r0.data <;> simp [bodyPairs]

/-- C2 (amended): when the result at index 0 (not the first successful
result in general) is successful with truthy data, the rendering context
binds `data` to that result's body, merges the body's own keys at top
level when the body is a keyed map (provided they do not collide with the
context's reserved keys), binds `result_<i>` exactly for those positions
`i` whose result is successful with truthy data (failed results get no
binding), and carries the `_results`, `_success_count` and `_error_count`
helpers; the main template is rendered with the error template as
fallback. -/
theorem render_api_response_ctx_amended (template etpl ndtpl : String)
    (r0 : ExecResult) (rest : List ExecResult)
    (h0s : r0.success = true) (h0d : pyTruthy r0.data = true)
    (hclean : ∀ kv ∈ bodyPairs r0.data,
      reservedKeyB (rest.length + 1) kv.1 = false)
    (hnd : ((bodyPairs r0.data).map Prod.fst).Nodup) :
    ∃ ctx : List (String × JsonVal),
      render_api_response template (r0 :: rest) etpl ndtpl =
        .ok (.rendered template ctx (some etpl)) ∧
      ctx.lookup "data" = some r0.data ∧
      (∀ kv ∈ bodyPairs r0.data, ctx.lookup kv.1 = some kv.2) ∧
      (∀ (i : Nat) (hi : i < (r0 :: rest).length),
        ctx.lookup (resultKey i) =
          if (((r0 :: rest).get ⟨i, hi⟩).success &&
              pyTruthy (((r0 :: rest).get ⟨i, hi⟩).data)) = true
          then some (((r0 :: rest).get ⟨i, hi⟩).data) else none) ∧
      ctx.lookup "_results" = some (.arr ((r0 :: rest).map execResultJson)) ∧
      ctx.lookup "_success_count" =
        some (.i ((r0 :: rest).countP (fun r => r.success) : Int)) ∧
      ctx.lookup "_error_count" =
        some (.i ((((r0 :: rest).filter (fun r => !r.success)).length : Int))) := by
  have hcln : ∀ kv ∈ bodyPairs r0.data,
      kv.1 ≠ "data" ∧ kv.1 ≠ "_results" ∧ kv.1 ≠ "_success_count" ∧
      kv.1 ≠ "_error_count" ∧
      ∀ i, i < rest.length + 1 → kv.1 ≠ resultKey i :=
    fun kv hkv => (reservedKeyB_eq_false_iff _ _).mp (hclean kv hkv)
  set A0 := (bodyPairs r0.data).foldl (fun d kv => pyDictSet d kv.1 kv.2) []
    with hA0
  set A := pyDictSet (pyDictSet A0 "data" r0.data) (resultKey 0) r0.data
    with hA
  set D := buildRenderDataLoop 1 A rest with hD
  set ctx := pyDictSet
    (pyDictSet
      (pyDictSet D "_results" (.arr ((r0 :: rest).map execResultJson)))
      "_success_count" (.i ((r0 :: rest).countP (fun r => r.success) : Int)))
    "_error_count" (.i ((((r0 :: rest).filter (fun r => !r.success)).length : Int)))
    with hctx
  have hany : ((r0 :: rest).any fun r => r.success) = true := by
    simp [h0s]
  have hbuild : buildRenderData (r0 :: rest) = D := by
    rw [buildRenderData, buildRenderDataLoop,
      renderDataStep_zero r0 h0s h0d, hD]
  have hDnil : D ≠ [] := by
    rw [hD]
    exact loop_ne_nil rest 1 A (by rw [hA]; exact pyDictSet_ne_nil _ _ _)
  have hDne : D.isEmpty = false := by
    cases hDD : D with
    | nil => exact absurd hDD hDnil
    | cons a t => rfl
  have heq : render_api_response template (r0 :: rest) etpl ndtpl =
      .ok (.rendered template ctx (some etpl)) := by
    simp only [render_api_response, hany, Bool.not_true, Bool.and_false,
      Bool.false_eq_true, if_false, hbuild, hDne, hctx]
  have hAlookup0 : A.lookup (resultKey 0) = some r0.data := by
    rw [hA, lookup_pyDictSet, if_pos rfl]
  have hAlookupData : A.lookup "data" = some r0.data := by
    rw [hA, lookup_pyDictSet, if_neg (ne_resultKey "data" 0 (by decide)),
      lookup_pyDictSet, if_pos rfl]
  refine ⟨ctx, heq, ?_, ?_, ?_, ?_, ?_, ?_⟩
  · rw [hctx, lookup_pyDictSet, if_neg (by decide), lookup_pyDictSet,
      if_neg (by decide), lookup_pyDictSet, if_neg (by decide), hD,
      loop_lookup_miss rest 1 le_rfl A "data"
        (fun j hj => ne_resultKey "data" (1 + j) (by decide))]
    exact hAlookupData
  · intro kv hkv
    obtain ⟨hk1, hk2, hk3, hk4, hk5⟩ := hcln kv hkv
    rw [hctx, lookup_pyDictSet, if_neg hk4, lookup_pyDictSet, if_neg hk3,
      lookup_pyDictSet, if_neg hk2, hD,
      loop_lookup_miss rest 1 le_rfl A kv.1
        (fun j hj => hk5 (1 + j) (by omega)),
      hA, lookup_pyDictSet, if_neg (hk5 0 (by omega)),
      lookup_pyDictSet, if_neg hk1, hA0]
    exact fold_pyDictSet_lookup_hit (bodyPairs r0.data) [] kv hkv hnd
  · intro i hi
    have hne1 : ¬ resultKey i = "_error_count" :=
      fun h => ne_resultKey "_error_count" i (by decide) h.symm
    have hne2 : ¬ resultKey i = "_success_count" :=
      fun h => ne_resultKey "_success_count" i (by decide) h.symm
    have hne3 : ¬ resultKey i = "_results" :=
      fun h => ne_resultKey "_results" i (by decide) h.symm
    rw [hctx, lookup_pyDictSet, if_neg hne1, lookup_pyDictSet, if_neg hne2,
      lookup_pyDictSet, if_neg hne3, hD]
    cases i with
    | zero =>
      rw [loop_lookup_miss rest 1 le_rfl A (resultKey 0)
        (fun j hj h => by have := resultKey_inj h; omega)]
      rw [hAlookup0]
      simp [h0s, h0d]
    | succ j =>
      have hj : j < rest.length := by simpa using Nat.lt_of_succ_lt_succ hi
      have hh := loop_lookup_hit rest 1 le_rfl A j hj
      have harith : (1 : Nat) + j = j + 1 := by omega
      rw [harith] at hh
      rw [hh]
      have hAnone : A.lookup (resultKey (j + 1)) = none := by
        rw [hA, lookup_pyDictSet,
          if_neg (fun h => by have := resultKey_inj h; omega),
          lookup_pyDictSet,
          if_neg (fun h : resultKey (j+1) = "data" =>
            ne_resultKey "data" (j+1) (by decide) h.symm),
          hA0,
          fold_pyDictSet_lookup_miss (bodyPairs r0.data) [] (resultKey (j+1))
            (fun kv hkv => (hcln kv hkv).2.2.2.2 (j+1) (by omega))]
        rfl
      rw [hAnone]
      rfl
  · rw [hctx, lookup_pyDictSet, if_neg (by decide), lookup_pyDictSet,
      if_neg (by decide), lookup_pyDictSet, if_pos rfl]
  · rw [hctx, lookup_pyDictSet, if_neg (by decide), lookup_pyDictSet,
      if_pos rfl]
  · rw [hctx, lookup_pyDictSet, if_pos rfl]

/-- Context extractor for a rendered outcome (empty when no template is
rendered). -/
def renderedCtx : Except String RenderOutcome → List (String × JsonVal)
  | .ok (.rendered _ ctx _) => ctx
  | _ => []

/-- Witness for the amended C2: a successful first result with body
`{"name": "Laptop"}` followed by a failed result; the context binds
`name` (merged), `data`, `result_0`, no `result_1`, and the helpers. -/
theorem render_api_response_ctx_amended_witness :
    List.lookup "data"
      (renderedCtx (render_api_response "MAIN"
        [⟨"GET /a", true, .obj [("name", .s "Laptop")], none⟩,
         ⟨"GET /b", false, .null, some "e"⟩] "ERR" "ND")) =
      some (.obj [("name", .s "Laptop")]) ∧
    List.lookup "name"
      (renderedCtx (render_api_response "MAIN"
        [⟨"GET /a", true, .obj [("name", .s "Laptop")], none⟩,
         ⟨"GET /b", false, .null, some "e"⟩] "ERR" "ND")) =
      some (.s "Laptop") ∧
    List.lookup "result_0"
      (renderedCtx (render_api_response "MAIN"
        [⟨"GET /a", true, .obj [("name", .s "Laptop")], none⟩,
         ⟨"GET /b", false, .null, some "e"⟩] "ERR" "ND")) =
      some (.obj [("name", .s "Laptop")]) ∧
    List.lookup "result_1"
      (renderedCtx (render_api_response "MAIN"
        [⟨"GET /a", true, .obj [("name", .s "Laptop")], none⟩,
         ⟨"GET /b", false, .null, some "e"⟩] "ERR" "ND")) = none ∧
    List.lookup "_error_count"
      (renderedCtx (render_api_response "MAIN"
        [⟨"GET /a", true, .obj [("name", .s "Laptop")], none⟩,
         ⟨"GET /b", false, .null, some "e"⟩] "ERR" "ND")) = some (.i 1) := by
  obtain ⟨ctx, heq, hdata, hbody, hres, hrs, hsc, hec⟩ :=
    render_api_response_ctx_amended "MAIN" "ERR" "ND"
      ⟨"GET /a", true, .obj [("name", .s "Laptop")], none⟩
      [⟨"GET /b", false, .null, some "e"⟩]
      rfl rfl (by decide) (by decide)
  rw [heq]
  simp only [renderedCtx]
  have h0 := hres 0 (by decide)
  rw [show resultKey 0 = "result_0" from rfl] at h0
  have h1 := hres 1 (by decide)
  rw [show resultKey 1 = "result_1" from rfl] at h1
  refine ⟨hdata, ?_, ?_, ?_, ?_⟩
  · simpa using hbody ("name", .s "Laptop") (by simp [bodyPairs])
  · simpa using h0
  · simpa using h1
  · simpa using hec

/-! ## Request construction (`api_executor.py`: `_apply_transform`,
`_build_url`, `_find_endpoint`, `_build_query_params`) -/

/-- Python `int(value)`.  Raising conversions are `Except.error`. -/
def pyIntCoerce : JsonVal → Except String JsonVal
  | .i n => .ok (.i n)
  | .b true => .ok (.i 1)
  | .b false => .ok (.i 0)
  | .s str =>
    match parsePyInt str with
    | some n => .ok (.i n)
    | none => .error "ValueError: invalid literal for int()"
  | _ => .error "TypeError: int() argument"

/-- Python `float(value)`, restricted to the integral values representable
in this embedding: numeric and boolean inputs convert exactly, integral
decimal strings parse; non-integral floating-point values are outside the
embedding (no settled claim exercises the `float` transform). -/
def pyFloatCoerce : JsonVal → Except String JsonVal
  | .i n => .ok (.i n)
  | .b true => .ok (.i 1)
  | .b false => .ok (.i 0)
  | .s str =>
    match parsePyInt str with
    | some n => .ok (.i n)
    | none => .error "ValueError: could not convert string to float"
  | _ => .error "TypeError: float() argument"

/-- Embedding of `APIExecutor._apply_transform`.  The
`date_format:<in>:<out>` branch reformats a value that `strptime` can
parse and returns the value unchanged otherwise; the reformatting of
parseable dates is not modelled (no settled claim exercises it), so the
branch is the identity, which is also what the source does whenever the
parse fails or the transform is malformed.  An unknown transform name
passes the value through unchanged. -/
def apply_transform (value : JsonVal) (transform : String) :
    Except String JsonVal :=
  if transform = "lowercase" then .ok (.s (lowerStr (pyStr value)))
  else if transform = "uppercase" then .ok (.s (upperStr (pyStr value)))
  else if transform = "trim" then .ok (.s (pyStrip (pyStr value)))
  else if transform = "int" then pyIntCoerce value
  else if transform = "float" then pyFloatCoerce value
  else if transform = "bool" then
    .ok (.b (["true", "1", "yes"].contains (lowerStr (pyStr value))))
  else .ok value

/-- One iteration of the parameter-mapping loop of `_build_url`: when the
`{api_parameter}` placeholder occurs in the current path, the entity value
(default `""`) is transformed if a transform is declared and substituted
via `str.replace`. -/
def url_mapping_step (em : List (String × JsonVal)) (url : String)
    (mapping : ParameterMapping) : Except String String :=
  let placeholder := "\x7b" ++ mapping.api_parameter ++ "\x7d"
  if strContains url placeholder then do
    let value := (em.lookup mapping.entity_name).getD (.s "")
    let value ←
      match mapping.transform with
      | some t => apply_transform value t
      | none => pure value
    pure (pyReplace url placeholder (pyStr value))
  else pure url

/-- One iteration of the static-parameter loop of `_build_url`. -/
def url_static_step (url : String) (kv : String × JsonVal) : String :=
  let placeholder := "\x7b" ++ kv.1 ++ "\x7d"
  if strContains url placeholder then pyReplace url placeholder (pyStr kv.2)
  else url

/-- Embedding of the path construction of `APIExecutor._build_url`
(lines substituting into `url_path`): parameter mappings first, then
static parameters.  The final `urljoin` of the substituted path against
the configured base URL is not modelled — the settled claims are about
the constructed path. -/
def build_url_path (path : String) (m : APIMapping)
    (em : List (String × JsonVal)) : Except String String := do
  let p1 ← m.parameter_mappings.foldlM (url_mapping_step em) path
  pure (m.static_params.foldl url_static_step p1)

/-- Embedding of `APIExecutor._find_endpoint`: first endpoint with the
exact (path, method) pair. -/
def find_endpoint (spec : APISpec) (path : String) (method : HTTPMethod) :
    Option APIEndpoint :=
  spec.endpoints.find? (fun ep => ep.path == path && ep.method == method)

/-- One iteration of the mapped-parameter loop of `_build_query_params`
(only reached when an endpoint was resolved): a mapping whose target is a
declared query parameter pulls the entity value, skips `None`, applies the
transform and stores the value. -/
def query_mapping_step (ep : APIEndpoint) (em : List (String × JsonVal))
    (params : List (String × JsonVal)) (mapping : ParameterMapping) :
    Except String (List (String × JsonVal)) :=
  let query_param_names :=
    (ep.parameters.filter
      (fun p => p.location == ParameterLocation.query)).map (fun p => p.name)
  if query_param_names.contains mapping.api_parameter then
    let value := (em.lookup mapping.entity_name).getD .null
    if !(match value with | .null => true | _ => false) then do
      let value ←
        match mapping.transform with
        | some t => apply_transform value t
        | none => pure value
      pure (pyDictSet params mapping.api_parameter value)
    else pure params
  else pure params

/-- One iteration of the static-parameter loop of `_build_query_params`:
a static value whose text contains `{` is treated as an already-consumed
path placeholder and skipped; with a resolved endpoint the name must be a
declared query parameter, without one every static parameter is added. -/
def query_static_step (endpoint : Option APIEndpoint)
    (params : List (String × JsonVal)) (kv : String × JsonVal) :
    List (String × JsonVal) :=
  if !(strContains (pyStr kv.2) "\x7b") then
    match endpoint with
    | some ep =>
      if ep.parameters.any
          (fun p => p.name == kv.1 && p.location == ParameterLocation.query)
      then pyDictSet params kv.1 kv.2
      else params
    | none => pyDictSet params kv.1 kv.2
  else params

/-- Embedding of `APIExecutor._build_query_params`.  The loop over
`parameter_mappings` sits inside `if endpoint:` in the source, so without
a resolved endpoint no mapped parameter is considered at all. -/
def build_query_params (endpoint : Option APIEndpoint) (m : APIMapping)
    (em : List (String × JsonVal)) :
    Except String (List (String × JsonVal)) := do
  let params ←
    match endpoint with
    | some ep => m.parameter_mappings.foldlM (query_mapping_step ep em) []
    | none => pure []
  pure (m.static_params.foldl (query_static_step endpoint) params)

/-! ## Theorems for request construction (C3, C5, C9) -/

/-- Lookup through the endpoint-less static query fold for an absent key. -/
theorem foldl_qss_none_lookup_miss :
    ∀ (sps : List (String × JsonVal)) (acc : List (String × JsonVal))
      (κ : String), (∀ kv ∈ sps, kv.1 ≠ κ) →
      (sps.foldl (query_static_step none) acc).lookup κ = acc.lookup κ
  | [], _, _, _ => rfl
  | kv :: rest, acc, κ, h => by
    rw [List.foldl_cons,
      foldl_qss_none_lookup_miss rest _ κ
        (fun q hq => h q (List.mem_cons_of_mem kv hq))]
    unfold query_static_step
    cases hx : strContains (pyStr kv.2) "\x7b"
    · simp [lookup_pyDictSet, Ne.symm (h kv (List.mem_cons_self kv rest))]
    · simp

/-- Lookup through the endpoint-less static query fold for a stored pair
(distinct keys, brace-free value). -/
theorem foldl_qss_none_lookup_hit :
    ∀ (sps : List (String × JsonVal)) (acc : List (String × JsonVal))
      (kv : String × JsonVal), kv ∈ sps → (sps.map Prod.fst).Nodup →
      strContains (pyStr kv.2) "\x7b" = false →
      (sps.foldl (query_static_step none) acc).lookup kv.1 = some kv.2
  | [], _, _, hkv, _, _ => absurd hkv (List.not_mem_nil _)
  | p :: rest, acc, kv, hkv, hnd, hb => by
    rw [List.map_cons, List.nodup_cons] at hnd
    rcases List.mem_cons.mp hkv with rfl | hmem
    · rw [List.foldl_cons,
        foldl_qss_none_lookup_miss rest _ kv.1
          (fun q hq hq1 => hnd.1 (hq1 ▸ List.mem_map_of_mem Prod.fst hq))]
      unfold query_static_step
      rw [hb]
      simp only [Bool.not_false, if_true, lookup_pyDictSet, if_pos rfl]
    · exact foldl_qss_none_lookup_hit rest _ kv hmem hnd.2 hb

/-- C3 (amended): when the (path, method) pair resolves to no endpoint,
parameter mappings contribute NOTHING to the query parameters (the mapped
loop sits inside `if endpoint:`); the built query map consists exactly of
the static parameters whose stringified value contains no `{`, keyed by
their own names. -/
theorem build_query_params_no_endpoint_amended (m : APIMapping)
    (em : List (String × JsonVal)) :
    build_query_params none m em =
      .ok (m.static_params.foldl (query_static_step none) []) ∧
    (∀ pms : List ParameterMapping,
      build_query_params none
        ⟨m.endpoint_path, m.method, pms, m.static_params⟩ em =
        build_query_params none m em) ∧
    (∀ kv ∈ m.static_params, (m.static_params.map Prod.fst).Nodup →
      strContains (pyStr kv.2) "\x7b" = false →
      (m.static_params.foldl (query_static_step none) []).lookup kv.1 =
        some kv.2) ∧
    (∀ κ : String, (∀ kv ∈ m.static_params, kv.1 ≠ κ) →
      (m.static_params.foldl (query_static_step none) []).lookup κ = none) :=
  ⟨rfl, fun _ => rfl,
   fun kv hkv hnd hb => foldl_qss_none_lookup_hit m.static_params [] kv hkv hnd hb,
   fun κ hκ => foldl_qss_none_lookup_miss m.static_params [] κ hκ⟩

/-- Witness for the amended C3: one mapped parameter (with its entity
present!) and two static parameters, one brace-valued; only the brace-free
static parameter is included. -/
theorem build_query_params_no_endpoint_amended_witness :
    build_query_params none
        ⟨"/p", HTTPMethod.GET, [⟨"productId", "id", none⟩],
         [("limit", .i 10), ("tpl", .s "\x7bid\x7d")]⟩
        [("productId", .s "P1")] = .ok [("limit", .i 10)] ∧
    ([("limit", JsonVal.i 10), ("tpl", JsonVal.s "\x7bid\x7d")].foldl
        (query_static_step none) []).lookup "limit" = some (.i 10) ∧
    ([("limit", JsonVal.i 10), ("tpl", JsonVal.s "\x7bid\x7d")].foldl
        (query_static_step none) []).lookup "id" = none := by
  have h := build_query_params_no_endpoint_amended
    ⟨"/p", HTTPMethod.GET, [⟨"productId", "id", none⟩],
     [("limit", .i 10), ("tpl", .s "\x7bid\x7d")]⟩
    [("productId", .s "P1")]
  refine ⟨h.1.trans (by rfl), ?_, ?_⟩
  · exact h.2.2.1 ("limit", .i 10) (by simp) (by decide) rfl
  · exact h.2.2.2 "id" (by decide)

/-- Counterexample for C3 as stated: no endpoint resolves, the mapping's
entity is present with a non-null value, yet the built query-parameter map
is empty — the mapped value does not appear under `id`. -/
theorem build_query_params_no_endpoint_counterexample :
    build_query_params none
      ⟨"/products", HTTPMethod.GET, [⟨"productId", "id", none⟩], []⟩
      [("productId", .s "P1")] = .ok [] := rfl

/-- A parameter-mapping fold over a path containing none of the targeted
placeholders leaves the path unchanged and cannot fail. -/
theorem url_mapping_fold_id :
    ∀ (pms : List ParameterMapping) (em : List (String × JsonVal))
      (url : String),
      (∀ pm ∈ pms, strContains url ("\x7b" ++ pm.api_parameter ++ "\x7d") = false) →
      pms.foldlM (url_mapping_step em) url = .ok url
  | [], _, _, _ => rfl
  | pm :: rest, em, url, h => by
    rw [List.foldlM_cons]
    have hstep : url_mapping_step em url pm = .ok url := by
      simp only [url_mapping_step]
      rw [h pm (List.mem_cons_self pm rest)]
      rfl
    rw [hstep]
    show rest.foldlM (url_mapping_step em) url = .ok url
    exact url_mapping_fold_id rest em url
      (fun q hq => h q (List.mem_cons_of_mem pm hq))

/-- A static-parameter fold over a path containing none of the targeted
placeholders leaves the path unchanged. -/
theorem url_static_fold_id :
    ∀ (sps : List (String × JsonVal)) (url : String),
      (∀ kv ∈ sps, strContains url ("\x7b" ++ kv.1 ++ "\x7d") = false) →
      sps.foldl url_static_step url = url
  | [], _, _ => rfl
  | kv :: rest, url, h => by
    rw [List.foldl_cons]
    have hstep : url_static_step url kv = url := by
      simp only [url_static_step]
      rw [h kv (List.mem_cons_self kv rest)]
      rfl
    rw [hstep]
    exact url_static_fold_id rest url
      (fun q hq => h q (List.mem_cons_of_mem kv hq))

/-- C5: path placeholders are substituted first from parameter mappings
(value from the entity map, transform applied if declared), then from
static parameters; a placeholder matched by neither source remains
literally in the path and causes no error.  Conjuncts: the claim's own
`/products/{id}` example; mapping precedence over a static parameter with
the same target; an untouched placeholder surviving next to a substituted
one; a static-parameter substitution; and the general no-match
preservation. -/
theorem build_url_path_substitution :
    build_url_path "/products/\x7bid\x7d"
        ⟨"/products/\x7bid\x7d", .GET, [⟨"productId", "id", none⟩], []⟩
        [("productId", .s "P1")] = .ok "/products/P1" ∧
    build_url_path "/x/\x7bid\x7d"
        ⟨"/x/\x7bid\x7d", .GET, [⟨"productId", "id", none⟩], [("id", .s "B")]⟩
        [("productId", .s "A")] = .ok "/x/A" ∧
    build_url_path "/a/\x7bid\x7d/\x7brest\x7d"
        ⟨"/a/\x7bid\x7d/\x7brest\x7d", .GET, [⟨"productId", "id", none⟩], []⟩
        [("productId", .s "P1")] = .ok "/a/P1/\x7brest\x7d" ∧
    build_url_path "/static/\x7bpage\x7d"
        ⟨"/static/\x7bpage\x7d", .GET, [], [("page", .s "home")]⟩ [] =
      .ok "/static/home" ∧
    (∀ (path : String) (m : APIMapping) (em : List (String × JsonVal)),
      (∀ pm ∈ m.parameter_mappings,
        strContains path ("\x7b" ++ pm.api_parameter ++ "\x7d") = false) →
      (∀ kv ∈ m.static_params,
        strContains path ("\x7b" ++ kv.1 ++ "\x7d") = false) →
      build_url_path path m em = .ok path) := by
  refine ⟨rfl, rfl, rfl, rfl, ?_⟩
  intro path m em h1 h2
  unfold build_url_path
  rw [url_mapping_fold_id m.parameter_mappings em path h1]
  show Except.ok (m.static_params.foldl url_static_step path) = .ok path
  rw [url_static_fold_id m.static_params path h2]

/-- Witness for C5's general no-match clause: a mapping and a static
parameter that target no placeholder of the path leave it untouched. -/
theorem build_url_path_substitution_witness :
    build_url_path "/plain/\x7bq\x7d"
        ⟨"/plain/\x7bq\x7d", .GET, [⟨"e", "other", none⟩], [("s", .s "v")]⟩
        [] = .ok "/plain/\x7bq\x7d" := by
  have h := build_url_path_substitution
  exact h.2.2.2.2 "/plain/\x7bq\x7d"
    ⟨"/plain/\x7bq\x7d", .GET, [⟨"e", "other", none⟩], [("s", .s "v")]⟩ []
    (by intro pm hpm; simp only [List.mem_singleton] at hpm; subst hpm; rfl)
    (by intro kv hkv; simp only [List.mem_singleton] at hkv; subst hkv; rfl)

/-- C9 (amended): a parameter mapping WITHOUT a transform whose entity is
absent from the entity map substitutes the empty string for its matching
placeholder (the `entity_map.get(..., "")` default), rather than leaving
the placeholder literal; with a declared transform the transform is
applied to that empty-string default first and can change the substituted
text.  Conjunct two is the claim's own example. -/
theorem build_url_path_missing_entity_amended :
    (∀ (path ename aparam ep : String) (meth : HTTPMethod)
       (em : List (String × JsonVal)), em.lookup ename = none →
      build_url_path path ⟨ep, meth, [⟨ename, aparam, none⟩], []⟩ em =
        .ok (if strContains path ("\x7b" ++ aparam ++ "\x7d")
             then pyReplace path ("\x7b" ++ aparam ++ "\x7d") "" else path)) ∧
    build_url_path "/products/\x7bid\x7d"
        ⟨"/products/\x7bid\x7d", .GET, [⟨"productId", "id", none⟩], []⟩ [] =
      .ok "/products/" := by
  constructor
  · intro path ename aparam ep meth em hmiss
    have hstep : url_mapping_step em path ⟨ename, aparam, none⟩ =
        .ok (if strContains path ("\x7b" ++ aparam ++ "\x7d")
             then pyReplace path ("\x7b" ++ aparam ++ "\x7d") "" else path) := by
      simp only [url_mapping_step]
      rw [hmiss]
      cases hx : strContains path ("\x7b" ++ aparam ++ "\x7d") <;> rfl
    unfold build_url_path
    rw [List.foldlM_cons, hstep]
    rfl
  · rfl

/-- Witness for the amended C9 at a concrete absent entity. -/
theorem build_url_path_missing_entity_amended_witness :
    build_url_path "/p/\x7bq\x7d"
        ⟨"/p/\x7bq\x7d", .GET, [⟨"productId", "q", none⟩], []⟩ [] =
      .ok "/p/" := by
  have h := build_url_path_missing_entity_amended.1 "/p/\x7bq\x7d"
    "productId" "q" "/p/\x7bq\x7d" .GET [] rfl
  exact h.trans (by rfl)

/-- Counterexample for C9 as stated: the claim's universal "replaced by
the empty string" fails once a transform is declared — with transform
`bool` the empty default stringifies to `False`, so `/products/{id}`
becomes `/products/False`, not `/products/`. -/
theorem build_url_path_missing_entity_counterexample :
    build_url_path "/products/\x7bid\x7d"
        ⟨"/products/\x7bid\x7d", .GET, [⟨"productId", "id", some "bool"⟩], []⟩
        [] = .ok "/products/False" := rfl

/-! ## The OpenAPI parser (`services/openapi_parser.py`)

The YAML/JSON decoders are oracles.  `OpenAPIParserError` is the only
exception the parser raises deliberately; malformed document shapes
surface as `AttributeError`/`TypeError`/pydantic `ValidationError`
instead, which the embedding keeps in a separate error type (`ShapeErr`)
because `_parse_spec` and its helpers contain no `raise
OpenAPIParserError` statement.  The `warnings` list is write-only state
that never influences a returned value and is not modelled. -/

/-- Exceptions other than `OpenAPIParserError`: attribute errors from
calling `.get`/`.items`/`.split`/`.startswith` on a value of the wrong
shape, type errors from `in`/subscripting/unhashable keys, and pydantic
validation errors at model construction. -/
inductive ShapeErr where
  | attr (msg : String)
  | typeErr (msg : String)
  | validation (msg : String)

/-- Either an `OpenAPIParserError` (`parseErr`) or some other exception. -/
inductive PyErr where
  | parseErr (msg : String)
  | shape (e : ShapeErr)

/-- Python `v.get(k, default)`: only dicts have `.get`. -/
def pyGetAttrD (v : JsonVal) (k : String) (dflt : JsonVal) :
    Except ShapeErr JsonVal :=
  match v with
  | .obj kvs => .ok ((kvs.lookup k).getD dflt)
  | _ => .error (.attr ("object has no attribute get (key " ++ k ++ ")"))

/-- Python `k in v` for a string `k`: key test on dicts, substring test on
strings, membership on lists; `TypeError` otherwise. -/
def pyInKey (k : String) (v : JsonVal) : Except ShapeErr Bool :=
  match v with
  | .obj kvs => .ok (kvs.any (fun kv => kv.1 == k))
  | .s str => .ok (strContains str k)
  | .arr xs =>
    .ok (xs.any (fun x => match x with | .s str => str == k | _ => false))
  | _ => .error (.typeErr "argument of type is not iterable")

/-- Python `v[k]` for a string key `k` (used only after `k in v`
succeeded on a dict; other shapes raise). -/
def pySubscript (v : JsonVal) (k : String) : Except ShapeErr JsonVal :=
  match v with
  | .obj kvs =>
    match kvs.lookup k with
    | some x => .ok x
    | none => .error (.typeErr ("KeyError: " ++ k))
  | _ => .error (.typeErr "value is not subscriptable with a string key")

/-- Python `v.items()`. -/
def pyItems (v : JsonVal) : Except ShapeErr (List (String × JsonVal)) :=
  match v with
  | .obj kvs => .ok kvs
  | _ => .error (.attr "object has no attribute items")

/-- Python `for x in v`: lists yield elements, dicts their keys, strings
their characters; other values raise `TypeError`. -/
def pyIterate (v : JsonVal) : Except ShapeErr (List JsonVal) :=
  match v with
  | .arr xs => .ok xs
  | .obj kvs => .ok (kvs.map (fun kv => .s kv.1))
  | .s str => .ok (str.data.map (fun c => .s ⟨[c]⟩))
  | _ => .error (.typeErr "object is not iterable")

/-- Pydantic validation of a `str` field. -/
def asStr (v : JsonVal) : Except ShapeErr String :=
  match v with
  | .s str => .ok str
  | _ => .error (.validation "Input should be a valid string")

/-- Pydantic validation of a `bool` field. -/
def asBool (v : JsonVal) : Except ShapeErr Bool :=
  match v with
  | .b bv => .ok bv
  | _ => .error (.validation "Input should be a valid boolean")

/-- Pydantic validation of a `list[str]` field. -/
def asStrList (v : JsonVal) : Except ShapeErr (List String) :=
  match v with
  | .arr xs => xs.mapM asStr
  | _ => .error (.validation "Input should be a valid list")

/-- Pydantic validation of a `list[str] | None` field. -/
def asStrListOpt (v : JsonVal) : Except ShapeErr (Option (List String)) :=
  match v with
  | .null => .ok none
  | .arr xs => (xs.mapM asStr).map some
  | _ => .error (.validation "Input should be a valid list")

/-- Pydantic validation of a `dict[str, Any]` field. -/
def asObj (v : JsonVal) : Except ShapeErr (List (String × JsonVal)) :=
  match v with
  | .obj kvs => .ok kvs
  | _ => .error (.validation "Input should be a valid dictionary")

/-- Pydantic validation of a `dict[str, Any] | None` field. -/
def asObjOpt (v : JsonVal) :
    Except ShapeErr (Option (List (String × JsonVal))) :=
  match v with
  | .null => .ok none
  | .obj kvs => .ok (some kvs)
  | _ => .error (.validation "Input should be a valid dictionary")

/-- Python truthiness-based `a or b`. -/
def pyOr (a bv : JsonVal) : JsonVal := if pyTruthy a then a else bv

/-- The component-by-component walk of `_resolve_ref`: step into dicts by
key, give up (`None`) on a missing key or non-dict node. -/
def resolve_ref_walk : List String → JsonVal → Option JsonVal
  | [], current => some current
  | part :: rest, current =>
    match current with
    | .obj kvs =>
      match kvs.lookup part with
      | some nxt => resolve_ref_walk rest nxt
      | none => none
    | _ => none

/-- Embedding of `OpenAPIParser._resolve_ref`: external (non-`#/`)
references resolve to `None` with a warning; internal pointers walk the
`{"components": components}` tree; a non-dict target is `None`; a
non-string reference raises `AttributeError` at `.startswith`. -/
def resolve_ref (ref : JsonVal) (components : JsonVal) :
    Except ShapeErr (Option JsonVal) :=
  match ref with
  | .s r =>
    if !(("#/".data).isPrefixOf r.data) then .ok none
    else
      match resolve_ref_walk ((pySplit r '/').drop 1)
          (.obj [("components", components)]) with
      | some current =>
        .ok (match current with | .obj kvs => some (.obj kvs) | _ => none)
      | none => .ok none
  | _ => .error (.attr "object has no attribute startswith")

/-- Embedding of `OpenAPIParser._map_type`: string keys hit the closed
type table (defaulting to `string`), other hashable keys miss the table
(also `string`), unhashable keys raise `TypeError`. -/
def map_type (tv : JsonVal) : Except ShapeErr ParameterType :=
  match tv with
  | .s str =>
    .ok (if str = "string" then .string
         else if str = "integer" then .integer
         else if str = "number" then .number
         else if str = "boolean" then .boolean
         else if str = "array" then .array
         else if str = "object" then .object
         else .string)
  | .arr _ => .error (.typeErr "unhashable type")
  | .obj _ => .error (.typeErr "unhashable type")
  | _ => .ok .string

/-- The `location_map.get(param.get("in", "query"), QUERY)` lookup, with
the same hashability behaviour as `map_type`. -/
def map_location (lv : JsonVal) : Except ShapeErr ParameterLocation :=
  match lv with
  | .s str =>
    .ok (if str = "path" then .path
         else if str = "query" then .query
         else if str = "header" then .header
         else .query)
  | .arr _ => .error (.typeErr "unhashable type")
  | .obj _ => .error (.typeErr "unhashable type")
  | _ => .ok .query

/-- One iteration of the `_parse_parameters` loop: `$ref` entries are
resolved first (an unresolved or external reference is skipped —
`none`), then the location, schema type and the pydantic-validated
`APIParameter` fields are extracted. -/
def parse_parameter_one (components : JsonVal) (param0 : JsonVal) :
    Except ShapeErr (Option APIParameter) := do
  let hasRef ← pyInKey "$ref" param0
  let param? ←
    if hasRef then do
      let refv ← pySubscript param0 "$ref"
      resolve_ref refv components
    else pure (some param0)
  match param? with
  | none => pure none
  | some param => do
    let inv ← pyGetAttrD param "in" (.s "query")
    let location ← map_location inv
    let schema ← pyGetAttrD param "schema" (.obj [])
    let tyv ← pyGetAttrD schema "type" (.s "string")
    let param_type ← map_type tyv
    let namev ← pyGetAttrD param "name" (.s "")
    let descv ← pyGetAttrD param "description" (.s "")
    let reqv ← pyGetAttrD param "required" (.b false)
    let dfltv ← pyGetAttrD schema "default" .null
    let exv ← pyGetAttrD param "example" .null
    let sexv ← pyGetAttrD schema "example" .null
    let enumv ← pyGetAttrD schema "enum" .null
    let name ← asStr namev
    let description ← asStr descv
    let required ← asBool reqv
    let enum ← asStrListOpt enumv
    pure (some ⟨name, location, param_type, description, required, dfltv,
      pyOr exv sexv, enum⟩)

/-- Embedding of `OpenAPIParser._parse_parameters`. -/
def parse_parameters (components : JsonVal) (parameters : JsonVal) :
    Except ShapeErr (List APIParameter) := do
  let elems ← pyIterate parameters
  elems.foldlM (fun acc p => do
    match ← parse_parameter_one components p with
    | some ap => pure (acc ++ [ap])
    | none => pure acc) []

/-- Embedding of `OpenAPIParser._parse_request_body` (returns the result
dict as a generic value, matching the `dict[str, Any] | None` field). -/
def parse_request_body (components : JsonVal) (request_body0 : JsonVal) :
    Except ShapeErr JsonVal := do
  let hasRef ← pyInKey "$ref" request_body0
  let rb? ←
    if hasRef then do
      let refv ← pySubscript request_body0 "$ref"
      resolve_ref refv components
    else pure (some request_body0)
  match rb? with
  | none => pure (.obj [])
  | some rb => do
    let content ← pyGetAttrD rb "content" (.obj [])
    let requiredv ← pyGetAttrD rb "required" (.b false)
    let descv ← pyGetAttrD rb "description" (.s "")
    let contentPairs ← pyItems content
    let entries ← contentPairs.foldlM
      (fun (acc : List (String × JsonVal)) mkv => do
        let schema0 ← pyGetAttrD mkv.2 "schema" (.obj [])
        let hasRef2 ← pyInKey "$ref" schema0
        let schema ←
          if hasRef2 then do
            let refv2 ← pySubscript schema0 "$ref"
            match ← resolve_ref refv2 components with
            | some s2 => pure s2
            | none => pure JsonVal.null
          else pure schema0
        let ex ← pyGetAttrD mkv.2 "example" .null
        pure (pyDictSet acc mkv.1 (.obj [("schema", schema), ("example", ex)])))
      []
    pure (.obj [("required", requiredv), ("description", descv),
      ("content", .obj entries)])

/-- One iteration of the `_parse_responses` loop: `$ref` entries resolve
or skip; a non-numeric status key defaults to 200; the JSON content
schema (resolved, `or {}`) and example are extracted; pydantic validates
the `APIResponse` fields. -/
def parse_response_one (components : JsonVal) (status_code : String)
    (response0 : JsonVal) : Except ShapeErr (Option APIResponseM) := do
  let hasRef ← pyInKey "$ref" response0
  let resp? ←
    if hasRef then do
      let refv ← pySubscript response0 "$ref"
      resolve_ref refv components
    else pure (some response0)
  match resp? with
  | none => pure none
  | some response => do
    let code : Int := (parsePyInt status_code).getD 200
    let content ← pyGetAttrD response "content" (.obj [])
    let hasJson ← pyInKey "application/json" content
    let se ←
      if hasJson then do
        let json_content ← pySubscript content "application/json"
        let schema0 ← pyGetAttrD json_content "schema" (.obj [])
        let hasRef2 ← pyInKey "$ref" schema0
        let schema ←
          if hasRef2 then do
            let refv2 ← pySubscript schema0 "$ref"
            match ← resolve_ref refv2 components with
            | some s2 => pure (if pyTruthy s2 then s2 else .obj [])
            | none => pure (JsonVal.obj [])
          else pure schema0
        let ex ← pyGetAttrD json_content "example" .null
        pure (schema, ex)
      else pure (JsonVal.obj [], JsonVal.null)
    let descv ← pyGetAttrD response "description" (.s "")
    let description ← asStr descv
    let schemaObj ← asObj se.1
    let exampleObj ← asObjOpt se.2
    pure (some ⟨code, description, schemaObj, exampleObj⟩)

/-- Embedding of `OpenAPIParser._parse_responses`. -/
def parse_responses (components : JsonVal) (responses : JsonVal) :
    Except ShapeErr (List APIResponseM) := do
  let pairs ← pyItems responses
  pairs.foldlM (fun acc kv => do
    match ← parse_response_one components kv.1 kv.2 with
    | some r => pure (acc ++ [r])
    | none => pure acc) []

/-- Opening brace character. -/
def braceOpen : Char := Char.ofNat 123

/-- Closing brace character. -/
def braceClose : Char := Char.ofNat 125

/-- The `re.sub(r'\{[^}]+\}', '', path)` scan: at each opening brace, a
non-empty run of non-closing-brace characters followed by a closing brace
is removed; otherwise the character is kept. -/
def removeBraceGroups : Nat → List Char → List Char
  | 0, l => l
  | _ + 1, [] => []
  | fuel + 1, c :: t =>
    if c = braceOpen then
      let pre := t.takeWhile (fun d => d ≠ braceClose)
      if pre.length < t.length ∧ pre ≠ [] then
        removeBraceGroups fuel (t.drop (pre.length + 1))
      else c :: removeBraceGroups fuel t
    else c :: removeBraceGroups fuel t

/-- The `re.sub(r'_+', '_', ...)` collapse of underscore runs. -/
def collapseUnderscores : List Char → List Char
  | [] => []
  | [c] => [c]
  | a :: b :: t =>
    if a = '_' ∧ b = '_' then collapseUnderscores (b :: t)
    else a :: collapseUnderscores (b :: t)

/-- Embedding of `OpenAPIParser._generate_operation_id`: drop placeholder
segments, turn slashes into underscores, strip and collapse underscores,
and prefix the lower-cased method (alone if nothing remains). -/
def generate_operation_id (path : String) (method_lower : String) : String :=
  let clean1 := removeBraceGroups path.data.length path.data
  let clean2 := pyStripChar ⟨clean1.map (fun c => if c = '/' then '_' else c)⟩ '_'
  let clean3 : String := ⟨collapseUnderscores clean2.data⟩
  if clean3 ≠ "" then method_lower ++ "_" ++ clean3 else method_lower

/-- The name-keyed merge of path-level and operation-level parameters of
`_parse_operation` (`all_params = {p.name: p for p in path_params}`
overwritten by the operation-level parameters, then `list(values())`). -/
def merge_params (path_params op_params : List APIParameter) :
    List APIParameter :=
  (op_params.foldl (fun d p => pyDictSet d p.name p)
    (path_params.foldl (fun d p => pyDictSet d p.name p) [])).map Prod.snd

/-- Embedding of `OpenAPIParser._parse_operation`. -/
def parse_operation (path : String) (method_lower : String)
    (method : HTTPMethod) (operation : JsonVal)
    (path_params : List APIParameter) (components : JsonVal) :
    Except ShapeErr APIEndpoint := do
  let opParamsRaw ← pyGetAttrD operation "parameters" (.arr [])
  let op_params ← parse_parameters components opParamsRaw
  let hasRB ← pyInKey "requestBody" operation
  let request_body ←
    if hasRB then do
      let rb ← pySubscript operation "requestBody"
      (parse_request_body components rb).map some
    else pure none
  let responsesRaw ← pyGetAttrD operation "responses" (.obj [])
  let responses ← parse_responses components responsesRaw
  let opIdRaw ← pyGetAttrD operation "operationId" (.s "")
  let opIdVal := if pyTruthy opIdRaw then opIdRaw
    else .s (generate_operation_id path method_lower)
  let summaryRaw ← pyGetAttrD operation "summary" (.s "")
  let descRaw ← pyGetAttrD operation "description" (.s "")
  let tagsRaw ← pyGetAttrD operation "tags" (.arr [])
  let operation_id ← asStr opIdVal
  let summary ← asStr summaryRaw
  let description ← asStr descRaw
  let tags ← asStrList tagsRaw
  pure ⟨path, method, operation_id, summary, description, tags,
    merge_params path_params op_params, request_body, responses⟩

/-- The `for method in ["get", "post", "put", "patch", "delete"]` table,
paired with the enum member `HTTPMethod(method.upper())` yields. -/
def methodTable : List (String × HTTPMethod) :=
  [("get", .GET), ("post", .POST), ("put", .PUT), ("patch", .PATCH),
   ("delete", .DELETE)]

/-- Embedding of `OpenAPIParser._parse_paths`: non-dict path items are
skipped; path-level parameters are parsed once per path; one endpoint is
appended per supported method present under the path. -/
def parse_paths (paths : JsonVal) (components : JsonVal) :
    Except ShapeErr (List APIEndpoint) := do
  let pairs ← pyItems paths
  pairs.foldlM (fun acc kv =>
    match kv.2 with
    | .obj _ => do
      let pparams ← pyGetAttrD kv.2 "parameters" (.arr [])
      let path_params ← parse_parameters components pparams
      methodTable.foldlM (fun (acc2 : List APIEndpoint) mt => do
        let present ← pyInKey mt.1 kv.2
        if present then do
          let operation ← pySubscript kv.2 mt.1
          let ep ← parse_operation kv.1 mt.1 mt.2 operation path_params
            components
          pure (acc2 ++ [ep])
        else pure acc2) acc
    | _ => pure acc) []

/-- Embedding of `OpenAPIParser._parse_spec` (the top-level spec is
already known to be a dict).  The `info.get(...)` accesses happen at
`APISpec(...)` argument evaluation, after endpoint parsing; pydantic
validation then checks the fields in declaration order. -/
def parse_spec (spec : List (String × JsonVal)) : Except ShapeErr APISpec := do
  let info := (spec.lookup "info").getD (.obj [])
  let serversRaw ← pyIterate ((spec.lookup "servers").getD (.arr []))
  let serversPairs ← serversRaw.mapM (fun sv => do
    let url ← pyGetAttrD sv "url" (.s "")
    let desc ← pyGetAttrD sv "description" (.s "")
    pure (url, desc))
  let base_url_raw := match serversPairs.head? with
    | some p => p.1
    | none => JsonVal.s ""
  let components := (spec.lookup "components").getD (.obj [])
  let hasSS ← pyInKey "securitySchemes" components
  let security_schemes ←
    if hasSS then pySubscript components "securitySchemes"
    else pure (JsonVal.obj [])
  let endpoints ← parse_paths ((spec.lookup "paths").getD (.obj [])) components
  let titleRaw ← pyGetAttrD info "title" (.s "Untitled API")
  let versionRaw ← pyGetAttrD info "version" (.s "1.0.0")
  let descRaw ← pyGetAttrD info "description" (.s "")
  let title ← asStr titleRaw
  let version ← asStr versionRaw
  let description ← asStr descRaw
  let base_url ← asStr base_url_raw
  let servers ← serversPairs.mapM (fun p => do
    let u ← asStr p.1
    let d ← asStr p.2
    pure (u, d))
  let schemes ← asObj security_schemes
  pure ⟨title, version, description, base_url, endpoints, servers, schemes,
    some (.obj spec)⟩

/-- Core of `OpenAPIParser._validate_version`, applied to the value of
the `openapi` field (default `""`): a falsy value is "missing"; a string
value is accepted exactly when its first two dot-components are `3.0` or
`3.1`; a truthy non-string raises `AttributeError` at `.split`. -/
def validate_version_core (v : JsonVal) : Except PyErr Unit :=
  if !(pyTruthy v) then .error (.parseErr "Missing 'openapi' version field")
  else
    match v with
    | .s str =>
      if joinSep "." ((pySplit str '.').take 2) = "3.0" ∨
         joinSep "." ((pySplit str '.').take 2) = "3.1" then .ok ()
      else .error (.parseErr ("Unsupported OpenAPI version: " ++ str ++
        ". Supported versions: 3.0, 3.1"))
    | _ => .error (.shape (.attr "object has no attribute split"))

/-- Embedding of `OpenAPIParser._validate_version`. -/
def validate_version (spec : List (String × JsonVal)) : Except PyErr Unit :=
  validate_version_core ((spec.lookup "openapi").getD (.s ""))

/-- Result of one decoder invocation (`yaml.safe_load` / `json.loads`):
a document tree, or the error the parser wraps into an
`OpenAPIParserError`. -/
inductive DecodeResult where
  | ok (doc : JsonVal)
  | err (msg : String)

/-- Embedding of lines 40–48 of `OpenAPIParser.parse`: pick the decoder by
format and wrap its failure into a `ParseError`. -/
def decode_step (yamlLoad jsonLoads : String → DecodeResult)
    (content format : String) : Except PyErr JsonVal :=
  if lowerStr format = "yaml" then
    match yamlLoad content with
    | .ok doc => .ok doc
    | .err msg => .error (.parseErr ("Invalid YAML format: " ++ msg))
  else
    match jsonLoads content with
    | .ok doc => .ok doc
    | .err msg => .error (.parseErr ("Invalid JSON format: " ++ msg))

/-- Embedding of `OpenAPIParser.parse`. -/
def parse (yamlLoad jsonLoads : String → DecodeResult)
    (content format : String) : Except PyErr APISpec := do
  let doc ← decode_step yamlLoad jsonLoads content format
  match doc with
  | .obj kvs => do
    validate_version kvs
    (parse_spec kvs).mapError PyErr.shape
  | _ => .error (.parseErr "API spec must be a valid object/dictionary")


/-! ## Theorems for the parser: failure contract (C6) -/

/-- Whether a parse outcome is an `OpenAPIParserError`. -/
def resultIsParseError {α : Type} : Except PyErr α → Bool
  | .error (.parseErr _) => true
  | _ => false

/-- The decoder output the chosen format produces. -/
def decodeOf (yamlLoad jsonLoads : String → DecodeResult)
    (content format : String) : DecodeResult :=
  if lowerStr format = "yaml" then yamlLoad content else jsonLoads content

/-- The version condition that actually triggers a `ParseError`: the
`openapi` value is falsy (missing, empty, null, …), or it is a string
whose first two dot-components are neither `3.0` nor `3.1`.  (A truthy
non-string version instead crashes at `.split` with an
`AttributeError`.) -/
def badVersionSpec (kvs : List (String × JsonVal)) : Prop :=
  ¬ pyTruthy ((kvs.lookup "openapi").getD (.s "")) = true ∨
  ∃ str, (kvs.lookup "openapi").getD (.s "") = .s str ∧
    joinSep "." ((pySplit str '.').take 2) ≠ "3.0" ∧
    joinSep "." ((pySplit str '.').take 2) ≠ "3.1"

/-- The spec's three parse-failure conditions, stated on the decoder
output: undecodable content, a non-object top-level document, or a
bad/missing version declaration. -/
def specParseFailure (d : DecodeResult) : Prop :=
  (∃ msg, d = .err msg) ∨
  (∃ doc, d = .ok doc ∧ ∀ kvs, doc ≠ .obj kvs) ∨
  (∃ kvs, d = .ok (.obj kvs) ∧ badVersionSpec kvs)

/-- A decoder error makes `parse` raise a `ParseError`. -/
theorem parse_decode_err (y j : String → DecodeResult) (c f : String)
    (m : String) (hd : decodeOf y j c f = .err m) :
    ∃ m', parse y j c f = .error (.parseErr m') := by
  unfold decodeOf at hd
  unfold parse decode_step
  by_cases hf : lowerStr f = "yaml"
  · rw [if_pos hf] at hd ⊢
    rw [hd]
    exact ⟨"Invalid YAML format: " ++ m, rfl⟩
  · rw [if_neg hf] at hd ⊢
    rw [hd]
    exact ⟨"Invalid JSON format: " ++ m, rfl⟩

/-- A successful decode feeds the document unchanged into the rest of
`parse`. -/
theorem decodeOf_ok_decode_step (y j : String → DecodeResult) (c f : String)
    (doc : JsonVal) (hd : decodeOf y j c f = .ok doc) :
    decode_step y j c f = .ok doc := by
  unfold decodeOf at hd
  unfold decode_step
  by_cases hf : lowerStr f = "yaml"
  · rw [if_pos hf] at hd ⊢
    rw [hd]
  · rw [if_neg hf] at hd ⊢
    rw [hd]

/-- The remainder of `parse` after decoding to a top-level object. -/
theorem parse_after_decode_obj (y j : String → DecodeResult) (c f : String)
    (kvs : List (String × JsonVal))
    (hd : decode_step y j c f = .ok (.obj kvs)) :
    parse y j c f =
      (validate_version kvs >>= fun _ =>
        (parse_spec kvs).mapError PyErr.shape) := by
  unfold parse
  rw [hd]
  rfl

/-- The remainder of `parse` after decoding to a non-object document. -/
theorem parse_after_decode_nonobj (y j : String → DecodeResult)
    (c f : String) (doc : JsonVal) (hnon : ∀ kvs, doc ≠ .obj kvs)
    (hd : decode_step y j c f = .ok doc) :
    parse y j c f =
      .error (.parseErr "API spec must be a valid object/dictionary") := by
  unfold parse
  rw [hd]
  cases doc with
  | obj kvs => exact absurd rfl (hnon kvs)
  | null => rfl
  | b bv => rfl
  | i n => rfl
  | s str => rfl
  | arr xs => rfl

/-- `validate_version_core` raises a `ParseError` exactly on a falsy
value or an unsupported string version. -/
theorem validate_version_core_parseErr_iff (v : JsonVal) :
    (∃ m, validate_version_core v = .error (.parseErr m)) ↔
      (¬ pyTruthy v = true ∨ ∃ str, v = .s str ∧
        joinSep "." ((pySplit str '.').take 2) ≠ "3.0" ∧
        joinSep "." ((pySplit str '.').take 2) ≠ "3.1") := by
  by_cases ht : pyTruthy v = true
  · cases v with
    | s str =>
      simp only [validate_version_core, ht, Bool.not_true, Bool.false_eq_true,
        if_false]
      by_cases hmm : joinSep "." ((pySplit str '.').take 2) = "3.0" ∨
          joinSep "." ((pySplit str '.').take 2) = "3.1"
      · rw [if_pos hmm]
        constructor
        · rintro ⟨m, hm⟩
          cases hm
        · rintro (hbad | ⟨str', hstr', hne1, hne2⟩)
          · exact absurd trivial hbad
          · injection hstr' with hss
            subst hss
            rcases hmm with h30 | h31
            · exact absurd h30 hne1
            · exact absurd h31 hne2
      · rw [if_neg hmm]
        push_neg at hmm
        exact ⟨fun _ => Or.inr ⟨str, rfl, hmm.1, hmm.2⟩, fun _ => ⟨_, rfl⟩⟩
    | null => exact absurd ht (by decide)
    | b bv =>
      simp only [validate_version_core, ht, Bool.not_true, Bool.false_eq_true,
        if_false]
      constructor
      · rintro ⟨m, hm⟩
        cases hm
      · rintro (hbad | ⟨str', hstr', h1, h2⟩)
        · exact absurd trivial hbad
        · cases hstr'
    | i n =>
      simp only [validate_version_core, ht, Bool.not_true, Bool.false_eq_true,
        if_false]
      constructor
      · rintro ⟨m, hm⟩
        cases hm
      · rintro (hbad | ⟨str', hstr', h1, h2⟩)
        · exact absurd trivial hbad
        · cases hstr'
    | arr xs =>
      simp only [validate_version_core, ht, Bool.not_true, Bool.false_eq_true,
        if_false]
      constructor
      · rintro ⟨m, hm⟩
        cases hm
      · rintro (hbad | ⟨str', hstr', h1, h2⟩)
        · exact absurd trivial hbad
        · cases hstr'
    | obj kvs2 =>
      simp only [validate_version_core, ht, Bool.not_true, Bool.false_eq_true,
        if_false]
      constructor
      · rintro ⟨m, hm⟩
        cases hm
      · rintro (hbad | ⟨str', hstr', h1, h2⟩)
        · exact absurd trivial hbad
        · cases hstr'
  · have hf : pyTruthy v = false := Bool.eq_false_iff.mpr ht
    simp only [validate_version_core, hf, Bool.not_false, if_true]
    refine ⟨fun _ => Or.inl ?_, fun _ => ⟨_, rfl⟩⟩
    simp [hf]

/-- `validate_version` raises a `ParseError` exactly under
`badVersionSpec`. -/
theorem validate_version_parseErr_iff (kvs : List (String × JsonVal)) :
    (∃ m, validate_version kvs = .error (.parseErr m)) ↔ badVersionSpec kvs :=
  validate_version_core_parseErr_iff _

/-- `_parse_spec` never raises an `OpenAPIParserError`. -/
theorem mapError_shape_not_parseErr (x : Except ShapeErr APISpec) :
    resultIsParseError (x.mapError PyErr.shape) = false := by
  cases x <;> rfl

/-- C6 (amended): `parse` raises a `ParseError` EXACTLY when the decoder
fails, the decoded document is not an object, or the version value is
falsy/missing or a string outside {3.0, 3.1}; consequently an input
passing the three checks never yields a `ParseError`, but it may still
raise a different exception (shape or validation error) instead of
returning an `APISpec` — see the counterexample — and there is never a
partial result. -/
theorem parse_parse_error_characterization (y j : String → DecodeResult)
    (content format : String) :
    (resultIsParseError (parse y j content format) = true ↔
      specParseFailure (decodeOf y j content format)) ∧
    (∀ spc : APISpec, parse y j content format = .ok spc →
      ¬ specParseFailure (decodeOf y j content format)) := by
  have hiff : resultIsParseError (parse y j content format) = true ↔
      specParseFailure (decodeOf y j content format) := by
    constructor
    · intro h
      cases hd : decodeOf y j content format with
      | err m => exact Or.inl ⟨m, rfl⟩
      | ok doc =>
        have hstep := decodeOf_ok_decode_step y j content format doc hd
        cases doc with
        | obj kvs =>
          rw [parse_after_decode_obj y j content format kvs hstep] at h
          refine Or.inr (Or.inr ⟨kvs, rfl, ?_⟩)
          cases hv : validate_version kvs with
          | ok u =>
            cases u
            rw [hv] at h
            have h2 : resultIsParseError
                ((parse_spec kvs).mapError PyErr.shape) = true := h
            rw [mapError_shape_not_parseErr] at h2
            cases h2
          | error e =>
            rw [hv] at h
            cases e with
            | parseErr m =>
              exact (validate_version_parseErr_iff kvs).mp ⟨m, hv⟩
            | shape se => cases h
        | null =>
          rw [parse_after_decode_nonobj y j content format _
            (fun kvs hk => JsonVal.noConfusion hk) hstep] at h
          exact Or.inr (Or.inl ⟨.null, rfl, fun kvs hk => JsonVal.noConfusion hk⟩)
        | b bv =>
          exact Or.inr (Or.inl ⟨.b bv, rfl, fun kvs hk => JsonVal.noConfusion hk⟩)
        | i n =>
          exact Or.inr (Or.inl ⟨.i n, rfl, fun kvs hk => JsonVal.noConfusion hk⟩)
        | s str =>
          exact Or.inr (Or.inl ⟨.s str, rfl, fun kvs hk => JsonVal.noConfusion hk⟩)
        | arr xs =>
          exact Or.inr (Or.inl ⟨.arr xs, rfl, fun kvs hk => JsonVal.noConfusion hk⟩)
    · intro hfail
      rcases hfail with ⟨m, hm⟩ | ⟨doc, hdoc, hnotobj⟩ | ⟨kvs, hk, hbad⟩
      · obtain ⟨m', hm'⟩ := parse_decode_err y j content format m hm
        rw [hm']
        rfl
      · have hstep := decodeOf_ok_decode_step y j content format doc hdoc
        rw [parse_after_decode_nonobj y j content format doc hnotobj hstep]
        rfl
      · have hstep := decodeOf_ok_decode_step y j content format (.obj kvs) hk
        rw [parse_after_decode_obj y j content format kvs hstep]
        obtain ⟨m, hm⟩ := (validate_version_parseErr_iff kvs).mpr hbad
        rw [hm]
        rfl
  refine ⟨hiff, fun spc hok hfail => ?_⟩
  have h := hiff.mpr hfail
  rw [hok] at h
  cases h

/-- Witness for the amended C6: an unsupported declared version yields a
`ParseError` (via the characterization), and a minimal well-formed 3.0
document parses to an `APISpec` with defaulted metadata. -/
theorem parse_parse_error_characterization_witness :
    resultIsParseError (parse
      (fun _ => DecodeResult.ok (.obj [("openapi", .s "2.0")]))
      (fun _ => DecodeResult.err "unused") "" "yaml") = true ∧
    parse (fun _ => DecodeResult.ok (.obj [("openapi", .s "3.0.0")]))
      (fun _ => DecodeResult.err "unused") "" "yaml" =
      .ok ⟨"Untitled API", "1.0.0", "", "", [], [], [],
        some (.obj [("openapi", .s "3.0.0")])⟩ := by
  constructor
  · have h := (parse_parse_error_characterization
      (fun _ => DecodeResult.ok (.obj [("openapi", .s "2.0")]))
      (fun _ => DecodeResult.err "unused") "" "yaml").1
    refine h.mpr (Or.inr (Or.inr ⟨[("openapi", .s "2.0")], rfl, ?_⟩))
    exact Or.inr ⟨"2.0", rfl, by decide, by decide⟩
  · rfl

/-- Counterexample for C6 as stated: a document that decodes, is an
object at top level and declares version `3.0.0` — passing all three
checks — still fails (with an `AttributeError`, not a `ParseError`, and
with no `APISpec`) because its `info` field is a string, on which
`_parse_spec` calls `.get`. -/
theorem parse_shape_error_counterexample :
    parse (fun _ => DecodeResult.ok
        (.obj [("openapi", .s "3.0.0"), ("info", .s "oops")]))
      (fun _ => DecodeResult.err "unused") "" "yaml" =
      .error (.shape (.attr "object has no attribute get (key title)")) := rfl

/-! ## Theorems for the parser: parameter merging (C7) -/

/-- A successful lookup points at an actual member. -/
theorem mem_of_lookup {α : Type} :
    ∀ (d : List (String × α)) (κ : String) (v : α),
      d.lookup κ = some v → (κ, v) ∈ d
  | [], _, _, h => by cases h
  | (k', v') :: rest, κ, v, h => by
    by_cases hk : κ = k'
    · subst hk
      have hb : (κ == κ) = true := beq_self_eq_true κ
      rw [List.lookup, hb] at h
      injection h with h
      subst h
      exact List.mem_cons_self _ _
    · have hb : (κ == k') = false := beq_eq_false_iff_ne.mpr hk
      rw [List.lookup, hb] at h
      exact List.mem_cons_of_mem _ (mem_of_lookup rest κ v h)

/-- In a dict with distinct keys, every member is found by lookup. -/
theorem lookup_of_mem_nodup {α : Type} :
    ∀ (d : List (String × α)) (p : String × α), p ∈ d →
      (d.map Prod.fst).Nodup → d.lookup p.1 = some p.2
  | [], p, hp, _ => absurd hp (List.not_mem_nil p)
  | q :: rest, p, hp, hnd => by
    rw [List.map_cons, List.nodup_cons] at hnd
    rcases List.mem_cons.mp hp with rfl | hmem
    · have hb : (p.1 == p.1) = true := beq_self_eq_true p.1
      rw [List.lookup, hb]
    · have hne : p.1 ≠ q.1 :=
        fun h => hnd.1 (h ▸ List.mem_map_of_mem Prod.fst hmem)
      have hb : (p.1 == q.1) = false := beq_eq_false_iff_ne.mpr hne
      rw [List.lookup, hb]
      exact lookup_of_mem_nodup rest p hmem hnd.2

/-- Every member of an updated dict is an old member or the new pair. -/
theorem mem_pyDictSet_src {α : Type} :
    ∀ (d : List (String × α)) (k : String) (v : α) (p : String × α),
      p ∈ pyDictSet d k v → p ∈ d ∨ p = (k, v)
  | [], k, v, p, hp => by
    unfold pyDictSet at hp
    rcases List.mem_cons.mp hp with rfl | hmem
    · exact Or.inr rfl
    · cases hmem
  | (k', v') :: rest, k, v, p, hp => by
    unfold pyDictSet at hp
    by_cases hk : k' = k
    · rw [if_pos hk] at hp
      rcases List.mem_cons.mp hp with rfl | hmem
      · exact Or.inr (by rw [hk])
      · exact Or.inl (List.mem_cons_of_mem _ hmem)
    · rw [if_neg hk] at hp
      rcases List.mem_cons.mp hp with rfl | hmem
      · exact Or.inl (List.mem_cons_self _ _)
      · rcases mem_pyDictSet_src rest k v p hmem with h | h
        · exact Or.inl (List.mem_cons_of_mem _ h)
        · exact Or.inr h

/-- Keys of an updated dict: old keys or the new key. -/
theorem keys_pyDictSet_subset {α : Type} (d : List (String × α)) (k : String)
    (v : α) (κ : String) (h : κ ∈ (pyDictSet d k v).map Prod.fst) :
    κ ∈ d.map Prod.fst ∨ κ = k := by
  obtain ⟨p, hp, hκ⟩ := List.mem_map.mp h
  rcases mem_pyDictSet_src d k v p hp with h2 | h2
  · exact Or.inl (hκ ▸ List.mem_map_of_mem Prod.fst h2)
  · subst h2
    exact Or.inr hκ.symm

/-- A dict update preserves distinctness of keys. -/
theorem keys_nodup_pyDictSet {α : Type} :
    ∀ (d : List (String × α)) (k : String) (v : α),
      (d.map Prod.fst).Nodup → ((pyDictSet d k v).map Prod.fst).Nodup
  | [], k, v, _ => by
    unfold pyDictSet
    simp
  | (k', v') :: rest, k, v, hnd => by
    rw [List.map_cons, List.nodup_cons] at hnd
    unfold pyDictSet
    by_cases hk : k' = k
    · rw [if_pos hk, List.map_cons, List.nodup_cons]
      exact ⟨hnd.1, hnd.2⟩
    · rw [if_neg hk, List.map_cons, List.nodup_cons]
      refine ⟨fun hmem => ?_, keys_nodup_pyDictSet rest k v hnd.2⟩
      rcases keys_pyDictSet_subset rest k v k' hmem with h | h
      · exact hnd.1 h
      · exact hk h

/-- The name-keyed parameter fold is the pair fold over `(name, param)`
pairs. -/
theorem param_fold_eq_pairs_fold :
    ∀ (ps : List APIParameter) (D : List (String × APIParameter)),
      ps.foldl (fun d p => pyDictSet d p.name p) D =
        (ps.map (fun p => (p.name, p))).foldl
          (fun d kv => pyDictSet d kv.1 kv.2) D
  | [], _ => rfl
  | p :: rest, D => by
    rw [List.foldl_cons, List.map_cons, List.foldl_cons]
    exact param_fold_eq_pairs_fold rest _

/-- A pair fold preserves distinctness of keys. -/
theorem fold_keys_nodup {α : Type} :
    ∀ (pairs : List (String × α)) (D : List (String × α)),
      (D.map Prod.fst).Nodup →
      ((pairs.foldl (fun d kv => pyDictSet d kv.1 kv.2) D).map Prod.fst).Nodup
  | [], _, h => h
  | kv :: rest, D, h =>
    fold_keys_nodup rest _ (keys_nodup_pyDictSet D kv.1 kv.2 h)

/-- Every member of a pair fold comes from the base dict or the pair
list. -/
theorem fold_mem_src {α : Type} :
    ∀ (pairs : List (String × α)) (D : List (String × α)) (p : String × α),
      p ∈ pairs.foldl (fun d kv => pyDictSet d kv.1 kv.2) D →
      p ∈ D ∨ p ∈ pairs
  | [], _, _, hp => Or.inl hp
  | kv :: rest, D, p, hp => by
    rw [List.foldl_cons] at hp
    rcases fold_mem_src rest _ p hp with h | h
    · rcases mem_pyDictSet_src D kv.1 kv.2 p h with h2 | h2
      · exact Or.inl h2
      · have hpkv : p = kv := by rw [h2]
        exact Or.inr (hpkv ▸ List.mem_cons_self kv rest)
    · exact Or.inr (List.mem_cons_of_mem _ h)

/-- Map of keys of the `(name, param)` pair list. -/
theorem pairs_keys_eq_names (ps : List APIParameter) :
    (ps.map (fun p => (p.name, p))).map Prod.fst = ps.map APIParameter.name := by
  rw [List.map_map]
  rfl

/-- Success of a monadic bind in `Except` factors through an intermediate
success. -/
theorem except_bind_ok_iff {ε α β : Type} (x : Except ε α)
    (f : α → Except ε β) (b : β) :
    (x >>= f) = .ok b ↔ ∃ a, x = .ok a ∧ f a = .ok b := by
  cases x with
  | ok a => simp [Bind.bind, Except.bind]
  | error e => simp [Bind.bind, Except.bind]

/-- C7: in `_parse_operation`, the parameters of the produced endpoint
are exactly the name-keyed merge of path-level and operation-level
parameters (conjunct 1); in that merge, every operation-level parameter
is present, a path-level parameter whose name collides with an
operation-level one survives only if it IS an operation-level
declaration, and path-level parameters with fresh names are retained
(conjunct 2); conjunct 3 is the spec's own example (path declares `id`
required string, the operation redeclares it optional integer). -/
theorem parse_operation_param_merge :
    (∀ (path ml : String) (meth : HTTPMethod) (op : JsonVal)
       (pathPs : List APIParameter) (comps : JsonVal) (ep : APIEndpoint)
       (opRaw : JsonVal) (opPs : List APIParameter),
      pyGetAttrD op "parameters" (.arr []) = .ok opRaw →
      parse_parameters comps opRaw = .ok opPs →
      parse_operation path ml meth op pathPs comps = .ok ep →
      ep.parameters = merge_params pathPs opPs) ∧
    (∀ (pathPs opPs : List APIParameter),
      (opPs.map APIParameter.name).Nodup →
      (pathPs.map APIParameter.name).Nodup →
      (∀ q ∈ opPs, q ∈ merge_params pathPs opPs) ∧
      (∀ p ∈ pathPs, p.name ∉ opPs.map APIParameter.name →
        p ∈ merge_params pathPs opPs) ∧
      (∀ p ∈ pathPs, p.name ∈ opPs.map APIParameter.name →
        p ∈ merge_params pathPs opPs → p ∈ opPs)) ∧
    merge_params
      [⟨"id", .path, .string, "", true, .null, .null, none⟩,
       ⟨"other", .query, .string, "", false, .null, .null, none⟩]
      [⟨"id", .query, .integer, "", false, .null, .null, none⟩] =
      [⟨"id", .query, .integer, "", false, .null, .null, none⟩,
       ⟨"other", .query, .string, "", false, .null, .null, none⟩] := by
  refine ⟨?_, ?_, rfl⟩
  · intro path ml meth op pathPs comps ep opRaw opPs h1 h2 hok
    unfold parse_operation at hok
    simp only [except_bind_ok_iff] at hok
    obtain ⟨a1, ha1, a2, ha2, a3, ha3, hok⟩ := hok
    rw [h1] at ha1
    injection ha1 with ha1
    subst ha1
    rw [h2] at ha2
    injection ha2 with ha2
    subst ha2
    split at hok
    · simp only [except_bind_ok_iff] at hok
      obtain ⟨c1, _, c2, _, c3, _, c4, _, c5, _, c6, _, c7, _, c8, _, c9, _,
        c10, _, c11, _, c12, _, hfin⟩ := hok
      rw [← Except.ok.inj hfin]
    · simp only [except_bind_ok_iff] at hok
      obtain ⟨b1, _, b2, _, b3, _, b4, _, b5, _, b6, _, b7, _, b8, _, b9, _,
        b10, _, b11, _, hfin⟩ := hok
      rw [← Except.ok.inj hfin]
  · intro pathPs opPs hndop hndpath
    have hcorr : merge_params pathPs opPs =
        ((opPs.map (fun p => (p.name, p))).foldl
          (fun d kv => pyDictSet d kv.1 kv.2)
          ((pathPs.map (fun p => (p.name, p))).foldl
            (fun d kv => pyDictSet d kv.1 kv.2) [])).map Prod.snd := by
      unfold merge_params
      rw [param_fold_eq_pairs_fold, param_fold_eq_pairs_fold]
    have hndop2 : ((opPs.map (fun p => (p.name, p))).map Prod.fst).Nodup := by
      rw [pairs_keys_eq_names]
      exact hndop
    have hndpath2 : ((pathPs.map (fun p => (p.name, p))).map Prod.fst).Nodup := by
      rw [pairs_keys_eq_names]
      exact hndpath
    have hfoldnodup :
        (((opPs.map (fun p => (p.name, p))).foldl
          (fun d kv => pyDictSet d kv.1 kv.2)
          ((pathPs.map (fun p => (p.name, p))).foldl
            (fun d kv => pyDictSet d kv.1 kv.2) [])).map Prod.fst).Nodup :=
      fold_keys_nodup _ _ (fold_keys_nodup _ _ (by simp))
    refine ⟨?_, ?_, ?_⟩
    · intro q hq
      have hlook := fold_pyDictSet_lookup_hit
        (opPs.map (fun p => (p.name, p)))
        ((pathPs.map (fun p => (p.name, p))).foldl
          (fun d kv => pyDictSet d kv.1 kv.2) [])
        (q.name, q) (List.mem_map_of_mem _ hq) hndop2
      have hmem := mem_of_lookup _ _ _ hlook
      rw [hcorr]
      exact List.mem_map_of_mem Prod.snd hmem
    · intro p hp hfresh
      have hmiss := fold_pyDictSet_lookup_miss
        (opPs.map (fun q => (q.name, q)))
        ((pathPs.map (fun q => (q.name, q))).foldl
          (fun d kv => pyDictSet d kv.1 kv.2) []) p.name
        (by
          intro kv hkv hkv1
          obtain ⟨r, hr, hrkv⟩ := List.mem_map.mp hkv
          apply hfresh
          rw [← hrkv] at hkv1
          exact hkv1 ▸ List.mem_map_of_mem APIParameter.name hr)
      have hhit := fold_pyDictSet_lookup_hit
        (pathPs.map (fun q => (q.name, q))) [] (p.name, p)
        (List.mem_map_of_mem _ hp) hndpath2
      have hlook := hmiss.trans hhit
      have hmem := mem_of_lookup _ _ _ hlook
      rw [hcorr]
      exact List.mem_map_of_mem Prod.snd hmem
    · intro p hp hcoll hpmem
      rw [hcorr] at hpmem
      obtain ⟨pr, hpr, hsnd⟩ := List.mem_map.mp hpmem
      have hwf : pr.1 = pr.2.name := by
        rcases fold_mem_src _ _ pr hpr with h | h
        · rcases fold_mem_src _ _ pr h with h2 | h2
          · cases h2
          · obtain ⟨r, _, hrpr⟩ := List.mem_map.mp h2
            rw [← hrpr]
        · obtain ⟨r, _, hrpr⟩ := List.mem_map.mp h
          rw [← hrpr]
      have hprp : pr = (p.name, p) := by
        have h1 : pr.2 = p := hsnd
        have h2 : pr.1 = p.name := by rw [hwf, h1]
        exact Prod.ext h2 h1
      have hlookp := lookup_of_mem_nodup _ pr hpr hfoldnodup
      obtain ⟨q, hq, hqname⟩ := List.mem_map.mp hcoll
      have hlookq := fold_pyDictSet_lookup_hit
        (opPs.map (fun r => (r.name, r)))
        ((pathPs.map (fun r => (r.name, r))).foldl
          (fun d kv => pyDictSet d kv.1 kv.2) [])
        (q.name, q) (List.mem_map_of_mem _ hq) hndop2
      rw [hprp] at hlookp
      rw [hqname] at hlookq
      have : some p = some q := hlookp.symm.trans hlookq
      injection this with hpq
      rw [hpq]
      exact hq

/-- Witness for C7: the spec's example parameters run through the merge
and through a full `_parse_operation` call on a concrete operation
object. -/
theorem parse_operation_param_merge_witness :
    (⟨"id", .query, .integer, "", false, .null, .null, none⟩ : APIParameter) ∈
      merge_params
        [⟨"id", .path, .string, "", true, .null, .null, none⟩,
         ⟨"other", .query, .string, "", false, .null, .null, none⟩]
        [⟨"id", .query, .integer, "", false, .null, .null, none⟩] ∧
    (⟨"other", .query, .string, "", false, .null, .null, none⟩ : APIParameter) ∈
      merge_params
        [⟨"id", .path, .string, "", true, .null, .null, none⟩,
         ⟨"other", .query, .string, "", false, .null, .null, none⟩]
        [⟨"id", .query, .integer, "", false, .null, .null, none⟩] ∧
    (⟨"/products/\x7bid\x7d", .GET, "get_products", "", "", [],
      [⟨"id", .query, .integer, "", false, .null, .null, none⟩], none, []⟩ :
        APIEndpoint).parameters =
      merge_params
        [⟨"id", .path, .string, "", true, .null, .null, none⟩]
        [⟨"id", .query, .integer, "", false, .null, .null, none⟩] := by
  have h2 := parse_operation_param_merge.2.1
    [⟨"id", .path, .string, "", true, .null, .null, none⟩,
     ⟨"other", .query, .string, "", false, .null, .null, none⟩]
    [⟨"id", .query, .integer, "", false, .null, .null, none⟩]
    (by simp) (by simp)
  refine ⟨h2.1 _ (by simp), h2.2.1 _ (by simp) (by simp), ?_⟩
  exact parse_operation_param_merge.1 "/products/\x7bid\x7d" "get" .GET
    (.obj [("parameters", .arr [.obj [("name", .s "id"), ("in", .s "query"),
      ("schema", .obj [("type", .s "integer")])]])])
    [⟨"id", .path, .string, "", true, .null, .null, none⟩]
    (.obj [])
    ⟨"/products/\x7bid\x7d", .GET, "get_products", "", "", [],
      [⟨"id", .query, .integer, "", false, .null, .null, none⟩], none, []⟩
    (.arr [.obj [("name", .s "id"), ("in", .s "query"),
      ("schema", .obj [("type", .s "integer")])]])
    [⟨"id", .query, .integer, "", false, .null, .null, none⟩]
    rfl rfl rfl

/-! ## The Q&A agent (`agents/qa_agent.py`) -/

/-- Embedding of `QAAgent._check_missing_entities`: required entity names
not present among the extracted entities' names, in declaration order. -/
def check_missing_entities (scenario : Scenario)
    (entities : List ExtractedEntity) : List String :=
  let extracted_names := entities.map (fun e => e.name)
  scenario.required_entities.filter (fun r => !(extracted_names.contains r))

/-- Oracle abstracting `AIService.match_scenario`. -/
def MatchOracle : Type := String → List Scenario → Option ScenarioMatch

/-- Oracle abstracting `AIService.generate_response`. -/
def GenOracle : Type := String → Scenario → JsonVal → String

/-- Steps 3 and 4 of `QAAgent.answer` (executed once the gate passed):
run the scenario's calls, then render via the scenario's template
(through `render_api_response`) or the AI-generation fallback, and
package the `AgentResponse`. -/
def answer_proceed (callO : CallOracle) (jinja : JinjaOracle)
    (genO : GenOracle) (question : String) (scenario : Scenario)
    (entities : List ExtractedEntity) : Except String AgentResponse :=
  let api_results : List ExecResult := execute_scenario callO scenario entities
  let answerText : Except String String :=
    match scenario.response_template with
    | some tpl =>
      (render_api_response tpl.template api_results tpl.error_template
        tpl.no_data_template).map (renderOutcomeText jinja)
    | none =>
      let successful_data :=
        (api_results.filter (fun r => r.success && pyTruthy r.data)).map
          (fun r => r.data)
      if !successful_data.isEmpty then
        .ok (genO question scenario
          (if successful_data.length = 1 then successful_data.headD .null
           else .arr successful_data))
      else
        match allSomeMsgs ((api_results.filter (fun r => !r.success)).map
            (fun r => r.error)) with
        | some msgs =>
          .ok ("Xin lỗi, không thể lấy thông tin. Lỗi: " ++ joinSep "; " msgs)
        | none =>
          .error "TypeError: sequence item: expected str instance, NoneType found"
  match answerText with
  | .ok t =>
    .ok ⟨t, some scenario.name,
      api_results.map (fun r => (r.endpoint, r.success)), api_results⟩
  | .error e => .error e

/-- Embedding of `QAAgent.answer`.  The clarification and low-confidence
branches return the canned texts of the source with empty call lists; the
proceed branch runs `execute_scenario` and renders via the scenario's
template (through `render_api_response`) or the AI generation fallback.
The only exception `answer` itself can propagate is the `TypeError` from
joining a `None` failure message, kept as `Except.error` (unreachable for
results produced by `execute_scenario`). -/
def answer (matchO : MatchOracle) (callO : CallOracle) (jinja : JinjaOracle)
    (genO : GenOracle) (config : AgentConfig) (question : String) :
    Except String AgentResponse :=
  match matchO question config.scenarios with
  | none =>
    .ok ⟨"Xin lỗi, tôi không hiểu câu hỏi của bạn. Vui lòng thử diễn đạt theo cách khác.",
      none, [], []⟩
  | some mr =>
    if mr.confidence < (3 : ℚ) / 10 then
      .ok ⟨"Xin lỗi, tôi không hiểu câu hỏi của bạn. Vui lòng thử diễn đạt theo cách khác.",
        none, [], []⟩
    else
      let scenario := mr.scenario
      let entities := mr.extracted_entities
      let missing := check_missing_entities scenario entities
      if !missing.isEmpty then
        .ok ⟨"Vui lòng cung cấp thêm thông tin: " ++ joinSep ", " missing,
          some scenario.name, [], []⟩
      else answer_proceed callO jinja genO question scenario entities

/-! ## Theorems for the agent gate (C8) -/

/-- A list of present messages collects successfully. -/
theorem allSomeMsgs_of_all_isSome :
    ∀ (l : List (Option String)), (∀ x ∈ l, ∃ m, x = some m) →
      ∃ msgs, allSomeMsgs l = some msgs
  | [], _ => ⟨[], rfl⟩
  | x :: rest, h => by
    obtain ⟨m, hm⟩ := h x (List.mem_cons_self x rest)
    obtain ⟨msgs, hmsgs⟩ := allSomeMsgs_of_all_isSome rest
      (fun y hy => h y (List.mem_cons_of_mem x hy))
    refine ⟨m :: msgs, ?_⟩
    rw [hm]
    simp only [allSomeMsgs, hmsgs]
    rfl

/-- Failed results of the execution loop always carry an error message. -/
theorem execute_loop_failed_error_some (call : CallOracle)
    (em : List (String × JsonVal)) :
    ∀ (ms : List APIMapping) (r : ExecResult),
      r ∈ execute_scenario_loop call em ms → r.success = false →
      ∃ m, r.error = some m
  | [], r, hr, _ => absurd hr (List.not_mem_nil r)
  | mp :: rest, r, hr, hs => by
    rw [execute_scenario_loop] at hr
    rcases List.mem_cons.mp hr with rfl | hmem
    · cases hco : call mp em with
      | ok d =>
        rw [hco] at hs
        simp [resultOfOutcome] at hs
      | execError m => exact ⟨m, rfl⟩
      | otherError m => exact ⟨"Unexpected error: " ++ m, rfl⟩
    · exact execute_loop_failed_error_some call em rest r hmem hs

/-- The failure messages of an executed scenario always join
successfully. -/
theorem execute_scenario_errors_allSome (call : CallOracle) (sc : Scenario)
    (es : List ExtractedEntity) :
    ∃ msgs, allSomeMsgs
      (((execute_scenario call sc es).filter (fun r => !r.success)).map
        (fun r => r.error)) = some msgs := by
  apply allSomeMsgs_of_all_isSome
  intro x hx
  obtain ⟨r, hr, hrx⟩ := List.mem_map.mp hx
  obtain ⟨hrmem, hrfail⟩ := List.mem_filter.mp hr
  have hs : r.success = false := by
    cases hsv : r.success
    · rfl
    · rw [hsv] at hrfail
      cases hrfail
  unfold execute_scenario at hrmem
  obtain ⟨m, hm⟩ := execute_loop_failed_error_some call (build_entity_map es)
    sc.api_mappings r hrmem hs
  exact ⟨m, hrx ▸ hm⟩

/-- When the failure messages join, `render_api_response` cannot raise. -/
theorem render_api_response_ok (tpl : String) (results : List ExecResult)
    (etpl ndtpl : String)
    (h : ∃ msgs, allSomeMsgs ((results.filter (fun r => !r.success)).map
      (fun r => r.error)) = some msgs) :
    ∃ out, render_api_response tpl results etpl ndtpl = .ok out := by
  obtain ⟨msgs, hm⟩ := h
  unfold render_api_response
  by_cases hc : (!(results.filter (fun r => !r.success)).isEmpty &&
      !(results.any (fun r => r.success))) = true
  · rw [if_pos hc, hm]
    exact ⟨_, rfl⟩
  · rw [if_neg hc]
    by_cases hd : (buildRenderData results).isEmpty = true
    · rw [if_pos hd]
      exact ⟨_, rfl⟩
    · rw [if_neg hd]
      exact ⟨_, rfl⟩

/-- The proceed branch always produces a response (the only `TypeError`
path needs a `None` failure message, which `execute_scenario` never
produces), and that response packages exactly the executed results. -/
theorem answer_proceed_spec (callO : CallOracle) (jinja : JinjaOracle)
    (genO : GenOracle) (question : String) (scenario : Scenario)
    (entities : List ExtractedEntity) :
    ∃ resp, answer_proceed callO jinja genO question scenario entities =
        .ok resp ∧
      resp.raw_api_responses = execute_scenario callO scenario entities ∧
      resp.api_calls_made = (execute_scenario callO scenario entities).map
        (fun r => (r.endpoint, r.success)) ∧
      resp.scenario_used = some scenario.name := by
  obtain ⟨msgs, hmsgs⟩ := execute_scenario_errors_allSome callO scenario entities
  cases htpl : scenario.response_template with
  | some tpl =>
    obtain ⟨out, hout⟩ := render_api_response_ok tpl.template
      (execute_scenario callO scenario entities) tpl.error_template
      tpl.no_data_template ⟨msgs, hmsgs⟩
    simp only [answer_proceed, htpl, hout, Except.map]
    exact ⟨_, rfl, rfl, rfl, rfl⟩
  | none =>
    by_cases hsd : (((execute_scenario callO scenario entities).filter
        (fun r => r.success && pyTruthy r.data)).map
          (fun r => r.data)).isEmpty = true
    · have hne : ¬ ((!(((execute_scenario callO scenario entities).filter
          (fun r => r.success && pyTruthy r.data)).map
            (fun r => r.data)).isEmpty) = true) := by
        rw [hsd]
        decide
      simp only [answer_proceed, htpl]
      rw [if_neg hne]
      simp only [hmsgs]
      exact ⟨_, rfl, rfl, rfl, rfl⟩
    · have hyes : (!(((execute_scenario callO scenario entities).filter
          (fun r => r.success && pyTruthy r.data)).map
            (fun r => r.data)).isEmpty) = true := by
        cases hv : (((execute_scenario callO scenario entities).filter
            (fun r => r.success && pyTruthy r.data)).map
              (fun r => r.data)).isEmpty
        · rfl
        · exact absurd hv hsd
      simp only [answer_proceed, htpl]
      rw [if_pos hyes]
      exact ⟨_, rfl, rfl, rfl, rfl⟩

/-- C8: `answer` proceeds to API invocation only when the scenario match
exists with confidence ≥ 0.3 and every required entity name appears among
the extracted entities (equivalently, `check_missing_entities` is empty).
Part 1: no match gives the canned low-confidence text with empty call
lists; part 2: confidence < 0.3 likewise; part 3: missing entities give
the clarification text with empty call lists; part 4: in every rejecting
case the answer is independent of the call, template and generation
engines, so the invocation engine is never consulted; part 5: when the
whole gate passes, the answer succeeds and its `api_calls_made` and
`raw_api_responses` record exactly the calls executed by
`execute_scenario`. -/
theorem answer_gate (matchO : MatchOracle) (callO callO' : CallOracle)
    (jinja jinja' : JinjaOracle) (genO genO' : GenOracle)
    (config : AgentConfig) (question : String) :
    (matchO question config.scenarios = none →
      answer matchO callO jinja genO config question =
        .ok ⟨"Xin lỗi, tôi không hiểu câu hỏi của bạn. Vui lòng thử diễn đạt theo cách khác.",
          none, [], []⟩) ∧
    (∀ mr, matchO question config.scenarios = some mr →
      mr.confidence < (3 : ℚ) / 10 →
      answer matchO callO jinja genO config question =
        .ok ⟨"Xin lỗi, tôi không hiểu câu hỏi của bạn. Vui lòng thử diễn đạt theo cách khác.",
          none, [], []⟩) ∧
    (∀ mr, matchO question config.scenarios = some mr →
      ¬ mr.confidence < (3 : ℚ) / 10 →
      check_missing_entities mr.scenario mr.extracted_entities ≠ [] →
      answer matchO callO jinja genO config question =
        .ok ⟨"Vui lòng cung cấp thêm thông tin: " ++ joinSep ", "
            (check_missing_entities mr.scenario mr.extracted_entities),
          some mr.scenario.name, [], []⟩) ∧
    ((matchO question config.scenarios = none ∨
      ∃ mr, matchO question config.scenarios = some mr ∧
        (mr.confidence < (3 : ℚ) / 10 ∨
          check_missing_entities mr.scenario mr.extracted_entities ≠ [])) →
      answer matchO callO jinja genO config question =
        answer matchO callO' jinja' genO' config question) ∧
    (∀ mr, matchO question config.scenarios = some mr →
      ¬ mr.confidence < (3 : ℚ) / 10 →
      check_missing_entities mr.scenario mr.extracted_entities = [] →
      ∃ resp, answer matchO callO jinja genO config question = .ok resp ∧
        resp.raw_api_responses =
          execute_scenario callO mr.scenario mr.extracted_entities ∧
        resp.api_calls_made =
          (execute_scenario callO mr.scenario mr.extracted_entities).map
            (fun r => (r.endpoint, r.success)) ∧
        resp.scenario_used = some mr.scenario.name) := by
  refine ⟨?_, ?_, ?_, ?_, ?_⟩
  · intro h
    simp only [answer, h]
  · intro mr h hc
    simp only [answer, h]
    rw [if_pos hc]
  · intro mr h hc hne
    have hE : (check_missing_entities mr.scenario
        mr.extracted_entities).isEmpty = false := by
      cases hmm : check_missing_entities mr.scenario mr.extracted_entities
      · exact absurd hmm hne
      · rfl
    have hT : (!(check_missing_entities mr.scenario
        mr.extracted_entities).isEmpty) = true := by
      rw [hE]
      rfl
    simp only [answer, h]
    rw [if_neg hc, if_pos hT]
  · intro hrej
    rcases hrej with h | ⟨mr, h, hcase⟩
    · simp only [answer, h]
    · by_cases hc : mr.confidence < (3 : ℚ) / 10
      · simp only [answer, h]
        rw [if_pos hc, if_pos hc]
      · rcases hcase with hc' | hne
        · exact absurd hc' hc
        · have hE : (check_missing_entities mr.scenario
              mr.extracted_entities).isEmpty = false := by
            cases hmm : check_missing_entities mr.scenario mr.extracted_entities
            · exact absurd hmm hne
            · rfl
          have hT : (!(check_missing_entities mr.scenario
              mr.extracted_entities).isEmpty) = true := by
            rw [hE]
            rfl
          simp only [answer, h]
          rw [if_neg hc, if_neg hc, if_pos hT, if_pos hT]
  · intro mr h hc hmiss
    have hE : (check_missing_entities mr.scenario
        mr.extracted_entities).isEmpty = true := by
      rw [hmiss]
      rfl
    have hF : ¬ ((!(check_missing_entities mr.scenario
        mr.extracted_entities).isEmpty) = true) := by
      rw [hE]
      decide
    obtain ⟨resp, hresp, hraw, hcalls, hused⟩ :=
      answer_proceed_spec callO jinja genO question mr.scenario
        mr.extracted_entities
    refine ⟨resp, ?_, hraw, hcalls, hused⟩
    simp only [answer, h]
    rw [if_neg hc, if_neg hF]
    exact hresp

/-- Scenario used by the gate witnesses: one required entity, no call. -/
def scMissW : Scenario := ⟨"s1", "lookup", "", ["productId"], [], none⟩

/-- Scenario used by the gate witnesses: no required entity, one call,
no template. -/
def scOkW : Scenario := ⟨"s2", "fetch", "", [], [⟨"/a", .GET, [], []⟩], none⟩

/-- Match result with confidence 1/5 < 0.3. -/
def mrLowW : ScenarioMatch := ⟨scMissW, (1 : ℚ) / 5, []⟩

/-- Match result with confidence 1/2 ≥ 0.3 but a missing entity. -/
def mrMissW : ScenarioMatch := ⟨scMissW, (1 : ℚ) / 2, []⟩

/-- Match result with confidence 1/2 ≥ 0.3 and nothing missing. -/
def mrOkW : ScenarioMatch := ⟨scOkW, (1 : ℚ) / 2, []⟩

/-- Call oracle for the gate witnesses: every call succeeds. -/
def callW : CallOracle := fun _ _ => .ok (.obj [("x", .i 1)])

/-- Template oracle for the gate witnesses. -/
def jinjaW : JinjaOracle := fun _ _ => .ok "rendered"

/-- Generation oracle for the gate witnesses. -/
def genW : GenOracle := fun _ _ _ => "generated"

/-- Agent configuration for the gate witnesses. -/
def cfgW : AgentConfig :=
  ⟨⟨"t", "1.0.0", "", "", [], [], [], none⟩, [scMissW, scOkW], []⟩

/-- Witness for `answer_gate` at concrete oracles: a missing match and a
confidence of 1/5 yield the canned text, a missing required entity yields
the clarification text, and a passing gate runs the single call of the
scenario and records it. -/
theorem answer_gate_witness :
    answer (fun _ _ => none) callW jinjaW genW cfgW "q" =
      .ok ⟨"Xin lỗi, tôi không hiểu câu hỏi của bạn. Vui lòng thử diễn đạt theo cách khác.",
        none, [], []⟩ ∧
    answer (fun _ _ => some mrLowW) callW jinjaW genW cfgW "q" =
      .ok ⟨"Xin lỗi, tôi không hiểu câu hỏi của bạn. Vui lòng thử diễn đạt theo cách khác.",
        none, [], []⟩ ∧
    answer (fun _ _ => some mrMissW) callW jinjaW genW cfgW "q" =
      .ok ⟨"Vui lòng cung cấp thêm thông tin: productId",
        some "lookup", [], []⟩ ∧
    (answer (fun _ _ => some mrOkW) callW jinjaW genW cfgW "q").map
        (fun r => r.raw_api_responses) =
      .ok [⟨"GET /a", true, .obj [("x", .i 1)], none⟩] := by
  refine ⟨?_, ?_, ?_, ?_⟩
  · exact (answer_gate (fun _ _ => none) callW callW jinjaW jinjaW genW genW
      cfgW "q").1 rfl
  · exact (answer_gate (fun _ _ => some mrLowW) callW callW jinjaW jinjaW
      genW genW cfgW "q").2.1 mrLowW rfl (by norm_num [mrLowW])
  · exact (answer_gate (fun _ _ => some mrMissW) callW callW jinjaW jinjaW
      genW genW cfgW "q").2.2.1 mrMissW rfl (by norm_num [mrMissW])
      (by decide)
  · obtain ⟨resp, hresp, hraw, _, _⟩ :=
      (answer_gate (fun _ _ => some mrOkW) callW callW jinjaW jinjaW
        genW genW cfgW "q").2.2.2.2 mrOkW rfl (by norm_num [mrOkW])
        (by decide)
    rw [hresp]
    simp only [Except.map, hraw]
    rfl
